import Mathlib

/-!
Shallow embedding of the miles-tracker backend core (query/filter
normalization, dynamic WHERE construction, upsert pipeline and
aggregation shaping) in Lean 4.

Conventions of the embedding:
* JavaScript strings are modelled as `JsStr := List Char`, with the string
  operations (`trim`, `toLowerCase`, lexicographic comparison) defined
  executably on char lists.
* JavaScript numbers are modelled as `ℚ` (exact arithmetic); `Number.isInteger`
  becomes "denominator = 1", `Math.trunc` becomes integer T-division of
  numerator by denominator, `Math.round` becomes Mathlib `round`
  (`⌊x + 1/2⌋`, the exact-arithmetic meaning of JS `Math.round`).
* TypeScript `T | undefined` becomes `Option T`; `T | null | undefined`
  becomes `Option (Option T)` (`none` = `undefined`, `some none` = `null`).
* `Effect`-typed fallible computations become `Except FlightsError α`;
  the abstract D1 store becomes an explicit `Db` state threaded through the
  operations, with a log of issued storage calls.
-/

/-- JavaScript string, modelled as its list of characters. -/
abbrev JsStr := List Char

/-- Whitespace predicate used by the model of `String.prototype.trim`. -/
def jsIsSpace (c : Char) : Bool := c = ' ' || c = '\t' || c = '\n' || c = '\r'

/-- Model of `value.trim()`: drop whitespace from both ends. -/
def jsTrim (s : JsStr) : JsStr :=
  ((s.dropWhile jsIsSpace).reverse.dropWhile jsIsSpace).reverse

/-- Model of `value.toLowerCase()` (ASCII letters, which is all the code compares). -/
def jsToLower (s : JsStr) : JsStr := s.map Char.toLower

/-- Strict lexicographic comparison of strings (SQLite BINARY collation /
JS `<` on strings, for the ASCII data this program stores). -/
def sLt : JsStr → JsStr → Bool
  | [], [] => false
  | [], _ :: _ => true
  | _ :: _, [] => false
  | a :: as, b :: bs => if a < b then true else if b < a then false else sLt as bs

/-- Non-strict lexicographic comparison. -/
def sLe (a b : JsStr) : Bool := !(sLt b a)

/-- Model of `Math.trunc` on an exact rational: T-division of numerator by denominator. -/
def jsTrunc (q : ℚ) : Int := q.num.tdiv (q.den : Int)

/-- Source `parse.ts` / `isIataCode`: exactly 3 uppercase Latin letters
(regex `^[A-Z]{3}$`). -/
def isIataCode (value : JsStr) : Bool :=
  value.length = 3 && value.all (fun c => 'A' ≤ c && c ≤ 'Z')

def isDigitChar (c : Char) : Bool := '0' ≤ c && c ≤ '9'

def digitVal (c : Char) : Nat := c.toNat - '0'.toNat

/-- Gregorian leap-year test (what `Date.UTC` implements). -/
def isLeapYear (y : Nat) : Bool := y % 4 = 0 && (y % 100 ≠ 0 || y % 400 = 0)

def daysInMonth (y m : Nat) : Nat :=
  if m = 2 then (if isLeapYear y then 29 else 28)
  else if m = 4 || m = 6 || m = 9 || m = 11 then 30 else 31

/-- Source `parse.ts` / `isIsoDate`: regex `^\d{4}-\d{2}-\d{2}$` plus the
round-trip through UTC-midnight `Date` parsing, which accepts exactly the
real calendar dates (rejects e.g. `2024-02-30`, month `00`, day `00`). -/
def isIsoDate (value : JsStr) : Bool :=
  match value with
  | [y1, y2, y3, y4, '-', mo1, mo2, '-', d1, d2] =>
    [y1, y2, y3, y4, mo1, mo2, d1, d2].all isDigitChar &&
    (let y := ((digitVal y1 * 10 + digitVal y2) * 10 + digitVal y3) * 10 + digitVal y4
     let m := digitVal mo1 * 10 + digitVal mo2
     let d := digitVal d1 * 10 + digitVal d2
     1 ≤ m && m ≤ 12 && 1 ≤ d && d ≤ daysInMonth y m)
  | _ => false

/-- Source `parse.ts` / `isTime`: regex `^\d{2}:\d{2}$`, hours 0-23, minutes 0-59. -/
def isTime (value : JsStr) : Bool :=
  match value with
  | [h1, h2, ':', m1, m2] =>
    [h1, h2, m1, m2].all isDigitChar &&
    (let h := digitVal h1 * 10 + digitVal h2
     let m := digitVal m1 * 10 + digitVal m2
     h ≤ 23 && m ≤ 59)
  | _ => false

/-- Source `parse.ts` / `round2`: `Math.round(value * 100) / 100`. -/
def round2 (value : ℚ) : ℚ := (round (value * 100) : ℚ) / 100

/-- Loosely-typed JavaScript value, as far as the primitive parsers inspect one. -/
inductive JsValue
  | str (s : JsStr)
  | num (q : ℚ)
  | bool (b : Bool)
  | null
  | undef
deriving DecidableEq, Repr

/-- Source `parse.ts` / `toBool`: `true`, `1`, `"1"`, `"true"`, `"yes"`, `"Yes"`
map to `true`; every other value maps to `false`. -/
def toBool (value : JsValue) : Bool :=
  value = .bool true || value = .num 1 || value = .str ['1'] ||
  value = .str ['t', 'r', 'u', 'e'] || value = .str ['y', 'e', 's'] ||
  value = .str ['Y', 'e', 's']

/-- Source `parse.ts` / `toNullableString` applied to a nullable string column:
`null` stays `null`, a string whose trim is empty becomes `null`, any other
string is returned unchanged. -/
def toNullableStringOpt (value : Option JsStr) : Option JsStr :=
  match value with
  | none => none
  | some s => if jsTrim s = [] then none else some s

/-- Source `routes/flights.ts` / `parseOptionalBooleanQuery`: absent or blank
query value is `undefined` (outer `none`); `"true"`/`"false"` case-insensitively
(after trimming) parse to the boolean; any other token is invalid (`null`,
modelled as `some none`). -/
def parseOptionalBooleanQuery (value : Option JsStr) : Option (Option Bool) :=
  match value with
  | none => none
  | some v =>
    let normalized := jsToLower (jsTrim v)
    if normalized = [] then none
    else if normalized = ['t', 'r', 'u', 'e'] then some (some true)
    else if normalized = ['f', 'a', 'l', 's', 'e'] then some (some false)
    else some none

/-- Source `routes/flights.ts` / `parseOptionalBooleanBody`: `null`/`undefined`
is `undefined`; a boolean passes through; anything else is invalid (`null`). -/
def parseOptionalBooleanBody (value : JsValue) : Option (Option Bool) :=
  match value with
  | .null => none
  | .undef => none
  | .bool b => some (some b)
  | _ => some none

/-- Error taxonomy of `lib/errors.ts`, restricted to the kinds the flights
service raises. -/
inductive FlightsError
  | validation (message : String)
  | database (message : String)
deriving DecidableEq, Repr

/-- Source `services/flights.ts` constants. -/
def DEFAULT_ORIGIN : JsStr := "KUL".toList

def DEFAULT_LIMIT : ℚ := 200

def MAX_LIMIT : ℚ := 500

def MAX_UPSERT_RECORDS : Nat := 500

def D1_BATCH_SIZE : Nat := 50

inductive SortOrder
  | date
  | points
deriving DecidableEq, Repr

/-- Source `SearchFlightsInput` (also the input shape of `getFlightStats`).
`Option (Option _)` fields: outer `none` = `undefined`, `some none` = `null`. -/
structure SearchFlightsInput where
  destination : JsStr
  origin : Option JsStr
  date : Option JsStr
  dateFrom : Option JsStr
  dateTo : Option JsStr
  cabin : Option JsStr
  tier : Option JsStr
  programId : Option JsStr
  availableOnly : Option (Option Bool)
  pointsMax : Option (Option ℚ)
  pointsMin : Option (Option ℚ)
  sort : Option JsStr
  limit : Option (Option ℚ)
  offset : Option (Option ℚ)
deriving DecidableEq, Repr

/-- Source `UpsertFlightInput`. -/
structure UpsertFlightInput where
  programId : JsStr
  origin : Option JsStr
  destination : JsStr
  flightNumber : JsStr
  departureDate : JsStr
  departureTime : JsStr
  arrivalTime : JsStr
  arrivalDayOffset : Option (Option ℚ)
  durationMinutes : Option ℚ
  routeType : JsStr
  cabin : JsStr
  tier : JsStr
  points : Option ℚ
  available : Option (Option Bool)
  seatsLeft : Option (Option ℚ)
  taxesMyr : Option ℚ
  cashEquivalentMyr : Option (Option ℚ)
  notes : Option JsStr
deriving DecidableEq, Repr

/-- Source `NormalizedSearchFilters`. -/
structure NormalizedSearchFilters where
  destination : JsStr
  origin : JsStr
  date : Option JsStr
  dateFrom : Option JsStr
  dateTo : Option JsStr
  cabin : Option JsStr
  tier : Option JsStr
  programId : Option JsStr
  availableOnly : Bool
  pointsMax : Option ℚ
  pointsMin : Option ℚ
  sort : SortOrder
  limit : ℚ
  offset : ℚ
deriving DecidableEq, Repr

/-- Source `NormalizedFlightRecord`. -/
structure NormalizedFlightRecord where
  programId : JsStr
  origin : JsStr
  destination : JsStr
  flightNumber : JsStr
  departureDate : JsStr
  departureTime : JsStr
  arrivalTime : JsStr
  arrivalDayOffset : ℚ
  durationMinutes : ℚ
  routeType : JsStr
  cabin : JsStr
  tier : JsStr
  points : ℚ
  available : Bool
  seatsLeft : Option ℚ
  taxesMyr : ℚ
  cashEquivalentMyr : Option ℚ
  notes : Option JsStr
deriving DecidableEq, Repr

/-- One stored row of the `award_flights` table, holding the column values
exactly as bound by the insert statement (`available` is the 0/1 integer
column, timestamps are the `datetime('now')` strings). -/
structure FlightRowCols where
  id : Nat
  program_id : JsStr
  origin : JsStr
  destination : JsStr
  flight_number : JsStr
  departure_date : JsStr
  departure_time : JsStr
  arrival_time : JsStr
  arrival_day_offset : ℚ
  duration_minutes : ℚ
  route_type : JsStr
  cabin : JsStr
  tier : JsStr
  points : ℚ
  available : ℚ
  seats_left : Option ℚ
  taxes_myr : ℚ
  cash_equivalent_myr : Option ℚ
  notes : Option JsStr
  created_at : JsStr
  updated_at : JsStr
deriving DecidableEq, Repr

/-- Source `AwardFlightRow`, the API row shape produced by `toAwardFlightRow`. -/
structure AwardFlightRow where
  id : Int
  program_id : JsStr
  origin : JsStr
  destination : JsStr
  flight_number : JsStr
  departure_date : JsStr
  departure_time : JsStr
  arrival_time : JsStr
  arrival_day_offset : Int
  duration_minutes : Int
  route_type : JsStr
  cabin : JsStr
  tier : JsStr
  points : Int
  available : Bool
  seats_left : Option Int
  taxes_myr : ℚ
  cash_equivalent_myr : Option ℚ
  notes : Option JsStr
  created_at : Option JsStr
  updated_at : Option JsStr
deriving DecidableEq, Repr

structure SearchMeta where
  total : Nat
  limit : ℚ
  offset : ℚ
deriving DecidableEq, Repr

structure SearchFlightsResult where
  data : List AwardFlightRow
  meta : SearchMeta
deriving DecidableEq, Repr

/-- Positional parameter bound into a prepared statement. -/
inductive SqlParam
  | str (s : JsStr)
  | num (q : ℚ)
deriving DecidableEq, Repr

/-- Source `WhereClause`: the conjunctive predicate fragments (joined with
`" AND "` at final assembly) and the parallel positional parameter list. -/
structure WhereClause where
  sql : List String
  params : List SqlParam
deriving DecidableEq, Repr

/-- Source `normalizeOptionalString`: non-strings (absent values) become
`undefined`, strings are trimmed, and an empty trim becomes `undefined`. -/
def normalizeOptionalString (value : Option JsStr) : Option JsStr :=
  match value with
  | none => none
  | some s => let trimmed := jsTrim s; if trimmed = [] then none else some trimmed

/-- JavaScript truthiness of a `string | undefined` value. -/
def optTruthy (v : Option JsStr) : Bool := v.getD [] ≠ []

def isCabin (value : JsStr) : Bool :=
  value = "economy".toList || value = "business".toList || value = "first".toList

def isRouteType (value : JsStr) : Bool :=
  value = "direct".toList || value = "1-stop".toList || value = "2-stop".toList

def validationFailure (message : String) : Except FlightsError α :=
  .error (.validation message)

def recordFailure (pointer field message : String) : Except FlightsError α :=
  .error (.validation s!"{pointer}.{field} {message}")

/-- Source `requireIataField`. -/
def requireIataField (value : Option JsStr) (field : String) (fallback : Option JsStr) :
    Except FlightsError JsStr :=
  let normalized := ((normalizeOptionalString value).orElse (fun _ => fallback)).getD []
  if isIataCode normalized then .ok normalized
  else validationFailure s!"{field} must be an uppercase 3-letter IATA code"

/-- Source `requireNonEmptyField`. -/
def requireNonEmptyField (value : JsStr) (field : String) : Except FlightsError JsStr :=
  let normalized := jsTrim value
  if normalized ≠ [] then .ok normalized
  else validationFailure s!"{field} is required"

/-- Source `ensureIsoDateValue`. -/
def ensureIsoDateValue (value : Option JsStr) (field : String) : Except FlightsError Unit :=
  if !optTruthy value then .ok ()
  else if isIsoDate (value.getD []) then .ok ()
  else validationFailure s!"{field} must be YYYY-MM-DD"

/-- Result of `normalizeDateFilters`. -/
structure NormalizedDateFilters where
  date : Option JsStr
  dateFrom : Option JsStr
  dateTo : Option JsStr
deriving DecidableEq, Repr

/-- Source `normalizeDateFilters`: trims the three inputs, rejects a single
date combined with either range end, validates each as ISO, and rejects an
inverted range. -/
def normalizeDateFilters (dateInput fromInput toInput : Option JsStr) :
    Except FlightsError NormalizedDateFilters := do
  let date := normalizeOptionalString dateInput
  let dateFrom := normalizeOptionalString fromInput
  let dateTo := normalizeOptionalString toInput
  if optTruthy date && (optTruthy dateFrom || optTruthy dateTo) then
    validationFailure "date cannot be combined with date_from/date_to"
  else do
    let _ ← ensureIsoDateValue date "date"
    let _ ← ensureIsoDateValue dateFrom "date_from"
    let _ ← ensureIsoDateValue dateTo "date_to"
    if optTruthy dateFrom && optTruthy dateTo && sLt (dateTo.getD []) (dateFrom.getD []) then
      validationFailure "date_from cannot be after date_to"
    else
      .ok { date := date, dateFrom := dateFrom, dateTo := dateTo }

/-- Source `normalizeCabinField`. -/
def normalizeCabinField (value : Option JsStr) : Except FlightsError (Option JsStr) :=
  let normalized := normalizeOptionalString value
  if !optTruthy normalized then .ok none
  else if isCabin (normalized.getD []) then .ok normalized
  else validationFailure "cabin must be one of: economy, business, first"

/-- Source `normalizeAvailableOnly`: an explicit `null` is rejected, absence
defaults to `true`, a boolean passes through. -/
def normalizeAvailableOnly (value : Option (Option Bool)) : Except FlightsError Bool :=
  match value with
  | some none => validationFailure "available_only must be true or false"
  | some (some b) => .ok b
  | none => .ok true

/-- Source `normalizePositiveIntFilter` (for `points_min` / `points_max`). -/
def normalizePositiveIntFilter (field : String) (value : Option (Option ℚ)) :
    Except FlightsError (Option ℚ) :=
  match value with
  | some none => validationFailure s!"{field} must be a positive integer"
  | none => .ok none
  | some (some v) =>
    if v.den = 1 && 0 < v then .ok (some v)
    else validationFailure s!"{field} must be a positive integer"

/-- Source `ensurePointsRange`. -/
def ensurePointsRange (pointsMin pointsMax : Option ℚ) : Except FlightsError Unit :=
  match pointsMin, pointsMax with
  | some lo, some hi =>
    if hi < lo then validationFailure "points_min cannot be greater than points_max"
    else .ok ()
  | _, _ => .ok ()

/-- Source `normalizeLimit`: `null` is rejected, absence defaults to 200, the
value must be an integer in `[1, 500]`. -/
def normalizeLimit (value : Option (Option ℚ)) : Except FlightsError ℚ :=
  match value with
  | some none => validationFailure "limit must be an integer between 1 and 500"
  | none => .ok DEFAULT_LIMIT
  | some (some v) =>
    if v.den = 1 && 1 ≤ v && v ≤ MAX_LIMIT then .ok v
    else validationFailure "limit must be an integer between 1 and 500"

/-- Source `normalizeOffset`: `null` is rejected, absence defaults to 0, the
value must be a non-negative integer. -/
def normalizeOffset (value : Option (Option ℚ)) : Except FlightsError ℚ :=
  match value with
  | some none => validationFailure "offset must be a non-negative integer"
  | none => .ok 0
  | some (some v) =>
    if v.den = 1 && 0 ≤ v then .ok v
    else validationFailure "offset must be a non-negative integer"

/-- Source `normalizeSort`: defaults to `"date"`, must be `date` or `points`. -/
def normalizeSort (value : Option JsStr) : Except FlightsError SortOrder :=
  let normalized := (normalizeOptionalString value).getD "date".toList
  if normalized = "date".toList then .ok .date
  else if normalized = "points".toList then .ok .points
  else validationFailure "sort must be one of: date, points"

/-- Source `normalizeSearchFilters`, the shared pipeline of `searchFlights`
and `getFlightStats`. -/
def normalizeSearchFilters (input : SearchFlightsInput) :
    Except FlightsError NormalizedSearchFilters := do
  let destination ← requireIataField (some input.destination) "destination" none
  let origin ← requireIataField input.origin "origin" (some DEFAULT_ORIGIN)
  let dates ← normalizeDateFilters input.date input.dateFrom input.dateTo
  let cabin ← normalizeCabinField input.cabin
  let tier := normalizeOptionalString input.tier
  let programId := normalizeOptionalString input.programId
  let availableOnly ← normalizeAvailableOnly input.availableOnly
  let pointsMin ← normalizePositiveIntFilter "points_min" input.pointsMin
  let pointsMax ← normalizePositiveIntFilter "points_max" input.pointsMax
  let _ ← ensurePointsRange pointsMin pointsMax
  let limit ← normalizeLimit input.limit
  let offset ← normalizeOffset input.offset
  let sort ← normalizeSort input.sort
  .ok { destination := destination, origin := origin, date := dates.date,
        dateFrom := dates.dateFrom, dateTo := dates.dateTo, cabin := cabin,
        tier := tier, programId := programId, availableOnly := availableOnly,
        pointsMax := pointsMax, pointsMin := pointsMin, sort := sort,
        limit := limit, offset := offset }

/-- One conditional push of the WHERE builder: when the condition holds,
append the predicate fragment to the `where` array and its bound values to
the `params` array (the two `push` calls of each `if` block in the source). -/
def pushIf (cond : Bool) (frag : String) (ps : List SqlParam)
    (prev : List String × List SqlParam) : List String × List SqlParam :=
  if cond then (prev.1 ++ [frag], prev.2 ++ ps) else prev

/-- Source `buildWhereClause`: conjunctive predicate fragments plus the
parallel parameter list, built by the same sequence of pushes as the code
(a single date replaces the range predicates entirely; each optional filter
contributes only when present; `availableOnly` binds no parameter). -/
def buildWhereClause (filters : NormalizedSearchFilters) : WhereClause :=
  let base : List String × List SqlParam :=
    (["origin = ?", "destination = ?"],
     [SqlParam.str filters.origin, SqlParam.str filters.destination])
  let afterDate :=
    if optTruthy filters.date then
      pushIf true "departure_date = ?" [SqlParam.str (filters.date.getD [])] base
    else
      pushIf (optTruthy filters.dateTo) "departure_date <= ?"
        [SqlParam.str (filters.dateTo.getD [])]
        (pushIf (optTruthy filters.dateFrom) "departure_date >= ?"
          [SqlParam.str (filters.dateFrom.getD [])] base)
  let final :=
    pushIf filters.pointsMin.isSome "points >= ?" [SqlParam.num (filters.pointsMin.getD 0)]
      (pushIf filters.pointsMax.isSome "points <= ?" [SqlParam.num (filters.pointsMax.getD 0)]
        (pushIf filters.availableOnly "available = 1" []
          (pushIf (optTruthy filters.programId) "program_id = ?"
            [SqlParam.str (filters.programId.getD [])]
            (pushIf (optTruthy filters.tier) "tier = ?" [SqlParam.str (filters.tier.getD [])]
              (pushIf (optTruthy filters.cabin) "cabin = ?"
                [SqlParam.str (filters.cabin.getD [])] afterDate)))))
  { sql := final.1, params := final.2 }

/-- SQL semantics of one predicate fragment emitted by this code base:
evaluates the fragment against a row, consuming the parameters it binds.
Returns `none` for a fragment/parameter mismatch. -/
def evalPred (frag : String) (params : List SqlParam) (r : FlightRowCols) :
    Option (Bool × List SqlParam) :=
  if frag = "origin = ?" then
    match params with
    | .str v :: rest => some (r.origin = v, rest)
    | _ => none
  else if frag = "destination = ?" then
    match params with
    | .str v :: rest => some (r.destination = v, rest)
    | _ => none
  else if frag = "departure_date = ?" then
    match params with
    | .str v :: rest => some (r.departure_date = v, rest)
    | _ => none
  else if frag = "departure_date >= ?" then
    match params with
    | .str v :: rest => some (sLe v r.departure_date, rest)
    | _ => none
  else if frag = "departure_date <= ?" then
    match params with
    | .str v :: rest => some (sLe r.departure_date v, rest)
    | _ => none
  else if frag = "cabin = ?" then
    match params with
    | .str v :: rest => some (r.cabin = v, rest)
    | _ => none
  else if frag = "tier = ?" then
    match params with
    | .str v :: rest => some (r.tier = v, rest)
    | _ => none
  else if frag = "program_id = ?" then
    match params with
    | .str v :: rest => some (r.program_id = v, rest)
    | _ => none
  else if frag = "available = 1" then
    some (r.available = 1, params)
  else if frag = "points <= ?" then
    match params with
    | .num v :: rest => some (r.points ≤ v, rest)
    | _ => none
  else if frag = "points >= ?" then
    match params with
    | .num v :: rest => some (v ≤ r.points, rest)
    | _ => none
  else none

/-- Conjunction of the fragments of a WHERE clause over a row, threading the
positional parameters through the fragments in order. -/
def evalWhere : List String → List SqlParam → FlightRowCols → Option Bool
  | [], [], _ => some true
  | [], _ :: _, _ => none
  | frag :: frags, params, r =>
    match evalPred frag params r with
    | some (b, rest) => (evalWhere frags rest r).map (fun b2 => b && b2)
    | none => none

/-- Row satisfaction of a built WHERE clause (a malformed clause matches nothing). -/
def rowMatches (w : WhereClause) (r : FlightRowCols) : Bool :=
  (evalWhere w.sql w.params r).getD false

/-- ORDER BY chain for `sort=points`: points ASC, departure_date ASC,
departure_time ASC. -/
def rowLePoints (a b : FlightRowCols) : Bool :=
  if a.points < b.points then true
  else if b.points < a.points then false
  else if sLt a.departure_date b.departure_date then true
  else if sLt b.departure_date a.departure_date then false
  else sLe a.departure_time b.departure_time

/-- ORDER BY chain for `sort=date` (the default): departure_date ASC,
departure_time ASC, points ASC. -/
def rowLeDate (a b : FlightRowCols) : Bool :=
  if sLt a.departure_date b.departure_date then true
  else if sLt b.departure_date a.departure_date then false
  else if sLt a.departure_time b.departure_time then true
  else if sLt b.departure_time a.departure_time then false
  else a.points ≤ b.points

def orderLE : SortOrder → FlightRowCols → FlightRowCols → Bool
  | .points => rowLePoints
  | .date => rowLeDate

/-- Insert into a sorted list (model of the store's ORDER BY). -/
def insertSorted (le : α → α → Bool) (a : α) : List α → List α
  | [] => [a]
  | b :: bs => if le a b then a :: b :: bs else b :: insertSorted le a bs

/-- Stable insertion sort (model of the store's ORDER BY). -/
def sortByLE (le : α → α → Bool) : List α → List α
  | [] => []
  | a :: as => insertSorted le a (sortByLE le as)

/-- Source `toAwardFlightRow`: maps a raw result row to the API shape
(`toInt` = truncation, `available` compares the 0/1 column to 1, monetary
fields re-rounded, nullable strings blank-collapsed). -/
def toAwardFlightRow (r : FlightRowCols) : AwardFlightRow :=
  { id := (r.id : Int),
    program_id := r.program_id,
    origin := r.origin,
    destination := r.destination,
    flight_number := r.flight_number,
    departure_date := r.departure_date,
    departure_time := r.departure_time,
    arrival_time := r.arrival_time,
    arrival_day_offset := jsTrunc r.arrival_day_offset,
    duration_minutes := jsTrunc r.duration_minutes,
    route_type := r.route_type,
    cabin := r.cabin,
    tier := r.tier,
    points := jsTrunc r.points,
    available := jsTrunc r.available = 1,
    seats_left := r.seats_left.map jsTrunc,
    taxes_myr := round2 r.taxes_myr,
    cash_equivalent_myr := r.cash_equivalent_myr.map round2,
    notes := toNullableStringOpt r.notes,
    created_at := toNullableStringOpt (some r.created_at),
    updated_at := toNullableStringOpt (some r.updated_at) }

/-- Prepared write statement of the flights upsert, holding the 18 bound
values (`available` is bound as `flight.available ? 1 : 0`). -/
structure UpsertStmt where
  programId : JsStr
  origin : JsStr
  destination : JsStr
  flightNumber : JsStr
  departureDate : JsStr
  departureTime : JsStr
  arrivalTime : JsStr
  arrivalDayOffset : ℚ
  durationMinutes : ℚ
  routeType : JsStr
  cabin : JsStr
  tier : JsStr
  points : ℚ
  available : ℚ
  seatsLeft : Option ℚ
  taxesMyr : ℚ
  cashEquivalentMyr : Option ℚ
  notes : Option JsStr
deriving DecidableEq, Repr

/-- Binding of one normalized record into the upsert statement
(source `upsertFlights`, the `.bind(...)` call). -/
def toUpsertStmt (flight : NormalizedFlightRecord) : UpsertStmt :=
  { programId := flight.programId,
    origin := flight.origin,
    destination := flight.destination,
    flightNumber := flight.flightNumber,
    departureDate := flight.departureDate,
    departureTime := flight.departureTime,
    arrivalTime := flight.arrivalTime,
    arrivalDayOffset := flight.arrivalDayOffset,
    durationMinutes := flight.durationMinutes,
    routeType := flight.routeType,
    cabin := flight.cabin,
    tier := flight.tier,
    points := flight.points,
    available := if flight.available then 1 else 0,
    seatsLeft := flight.seatsLeft,
    taxesMyr := flight.taxesMyr,
    cashEquivalentMyr := flight.cashEquivalentMyr,
    notes := flight.notes }

/-- ON CONFLICT target of the upsert statement: the compound unique key
`(program_id, origin, destination, flight_number, departure_date, cabin, tier)`. -/
def stmtKeyMatches (s : UpsertStmt) (r : FlightRowCols) : Bool :=
  r.program_id = s.programId && r.origin = s.origin && r.destination = s.destination &&
  r.flight_number = s.flightNumber && r.departure_date = s.departureDate &&
  r.cabin = s.cabin && r.tier = s.tier

/-- DO UPDATE SET branch of the upsert statement: exactly the mutable columns
listed in the source SQL are overwritten from `excluded`, and `updated_at` is
set to `datetime('now')`; every other column keeps its value. -/
def applyConflictUpdate (s : UpsertStmt) (now : JsStr) (r : FlightRowCols) : FlightRowCols :=
  { r with
    departure_time := s.departureTime,
    arrival_time := s.arrivalTime,
    arrival_day_offset := s.arrivalDayOffset,
    duration_minutes := s.durationMinutes,
    route_type := s.routeType,
    points := s.points,
    available := s.available,
    seats_left := s.seatsLeft,
    taxes_myr := s.taxesMyr,
    cash_equivalent_myr := s.cashEquivalentMyr,
    notes := s.notes,
    updated_at := now }

/-- Fresh row inserted by the VALUES branch (`created_at` and `updated_at`
both `datetime('now')`). -/
def newRowFromStmt (s : UpsertStmt) (now : JsStr) (nextId : Nat) : FlightRowCols :=
  { id := nextId,
    program_id := s.programId,
    origin := s.origin,
    destination := s.destination,
    flight_number := s.flightNumber,
    departure_date := s.departureDate,
    departure_time := s.departureTime,
    arrival_time := s.arrivalTime,
    arrival_day_offset := s.arrivalDayOffset,
    duration_minutes := s.durationMinutes,
    route_type := s.routeType,
    cabin := s.cabin,
    tier := s.tier,
    points := s.points,
    available := s.available,
    seats_left := s.seatsLeft,
    taxes_myr := s.taxesMyr,
    cash_equivalent_myr := s.cashEquivalentMyr,
    notes := s.notes,
    created_at := now,
    updated_at := now }

/-- SQLite semantics of one `INSERT ... ON CONFLICT ... DO UPDATE` statement
against the table: a row carrying the statement's compound key is updated in
place, otherwise a fresh row is appended. -/
def applyUpsertStmt (now : JsStr) (st : List FlightRowCols × Nat) (s : UpsertStmt) :
    List FlightRowCols × Nat :=
  if st.1.any (fun r => stmtKeyMatches s r) then
    (st.1.map (fun r => if stmtKeyMatches s r then applyConflictUpdate s now r else r), st.2)
  else
    (st.1 ++ [newRowFromStmt s now st.2], st.2 + 1)

/-- Storage operation visible at the store boundary. -/
inductive DbOp
  | readQuery
  | batchWrite (stmts : List UpsertStmt)
deriving DecidableEq, Repr

/-- Abstract D1 store state: the `award_flights` rows, the autoincrement
counter, the clock value `datetime('now')` returns, a failure oracle for
batched write calls (indexed by the batch call count), and the ordered log of
storage calls issued so far. -/
structure Db where
  rows : List FlightRowCols
  nextId : Nat
  now : JsStr
  batchFails : Nat → Bool
  batchIndex : Nat
  log : List DbOp

/-- Model of `db.batch(statements)`: the call is logged and counted; if the
failure oracle fires the call raises a `DatabaseError`, otherwise the
statements are applied to the table in order, as one call. -/
def dbBatch (stmts : List UpsertStmt) (db : Db) : Except FlightsError Unit × Db :=
  let logged : Db := { db with log := db.log ++ [DbOp.batchWrite stmts],
                               batchIndex := db.batchIndex + 1 }
  if db.batchFails db.batchIndex then
    (.error (.database "Failed to upsert award flights"), logged)
  else
    let final := stmts.foldl (applyUpsertStmt db.now) (db.rows, db.nextId)
    (.ok (), { logged with rows := final.1, nextId := final.2 })

/-- Recursion of `chunkArray` on an explicit fuel bound (started at
`items.length`, which suffices for any positive size) so the definition is
structural and computes by kernel reduction. -/
def chunkArrayGo (size : Nat) : Nat → List α → List (List α)
  | 0, _ => []
  | _, [] => []
  | fuel + 1, a :: as => (a :: as).take size :: chunkArrayGo size fuel ((a :: as).drop size)

/-- Source `chunkArray`: fixed-size slices `items.slice(i, i + size)` taken at
`i = 0, size, 2*size, ...`. (The source only ever calls it with size 50;
a zero size would not terminate there and is mapped to `[]` here.) -/
def chunkArray (items : List α) (size : Nat) : List (List α) :=
  if size = 0 then [] else chunkArrayGo size items.length items

/-- Source `requireRecordText`. -/
def requireRecordText (value : JsStr) (pointer field : String) : Except FlightsError JsStr :=
  let normalized := jsTrim value
  if normalized ≠ [] then .ok normalized
  else recordFailure pointer field "is required"

/-- Source `requireRecordIata`. -/
def requireRecordIata (value : Option JsStr) (pointer field : String) (fallback : Option JsStr) :
    Except FlightsError JsStr :=
  let normalized := ((normalizeOptionalString value).orElse (fun _ => fallback)).getD []
  if isIataCode normalized then .ok normalized
  else recordFailure pointer field "must be an uppercase 3-letter IATA code"

/-- Source `requireRecordIsoDate`. -/
def requireRecordIsoDate (value : JsStr) (pointer field : String) : Except FlightsError JsStr :=
  let normalized := jsTrim value
  if isIsoDate normalized then .ok normalized
  else recordFailure pointer field "must be YYYY-MM-DD"

/-- Source `requireRecordTime`. -/
def requireRecordTime (value : JsStr) (pointer field : String) : Except FlightsError JsStr :=
  let normalized := jsTrim value
  if isTime normalized then .ok normalized
  else recordFailure pointer field "must be HH:MM"

/-- Source `normalizeRecordArrivalDayOffset`: `null`/`undefined` default to 0,
the value must be an integer in `{0, 1, 2}`. -/
def normalizeRecordArrivalDayOffset (value : Option (Option ℚ)) (pointer : String) :
    Except FlightsError ℚ :=
  let normalized := match value with
    | some (some v) => v
    | _ => 0
  if normalized.den = 1 && 0 ≤ normalized && normalized ≤ 2 then .ok normalized
  else recordFailure pointer "arrival_day_offset" "must be one of: 0, 1, 2"

/-- Source `requireRecordPositiveInt` (here the call sites pass `number | null`). -/
def requireRecordPositiveInt (value : Option ℚ) (pointer field : String) :
    Except FlightsError ℚ :=
  match value with
  | some v => if v.den = 1 && 0 < v then .ok v
              else recordFailure pointer field "must be a positive integer"
  | none => recordFailure pointer field "must be a positive integer"

/-- Source `requireRecordNonNegativeNumber`. -/
def requireRecordNonNegativeNumber (value : Option ℚ) (pointer field : String) :
    Except FlightsError ℚ :=
  match value with
  | some v => if 0 ≤ v then .ok v
              else recordFailure pointer field "must be a non-negative number"
  | none => recordFailure pointer field "must be a non-negative number"

/-- Source `normalizeRecordRouteType`. -/
def normalizeRecordRouteType (value : JsStr) (pointer : String) : Except FlightsError JsStr :=
  let normalized := jsTrim value
  if isRouteType normalized then .ok normalized
  else recordFailure pointer "route_type" "must be one of: direct, 1-stop, 2-stop"

/-- Source `normalizeRecordCabin`. -/
def normalizeRecordCabin (value : JsStr) (pointer : String) : Except FlightsError JsStr :=
  let normalized := jsTrim value
  if isCabin normalized then .ok normalized
  else recordFailure pointer "cabin" "must be one of: economy, business, first"

/-- Source `normalizeRecordAvailable`: explicit `null` is rejected, absence
defaults to `true`, a boolean passes through. -/
def normalizeRecordAvailable (value : Option (Option Bool)) (pointer : String) :
    Except FlightsError Bool :=
  match value with
  | some none => recordFailure pointer "available" "must be a boolean"
  | none => .ok true
  | some (some b) => .ok b

/-- Source `normalizeRecordOptionalNonNegativeInt`. -/
def normalizeRecordOptionalNonNegativeInt (value : Option (Option ℚ)) (pointer field : String) :
    Except FlightsError (Option ℚ) :=
  match value with
  | none => .ok none
  | some none => .ok none
  | some (some v) =>
    if v.den = 1 && 0 ≤ v then .ok (some v)
    else recordFailure pointer field "must be a non-negative integer"

/-- Source `normalizeRecordOptionalNonNegativeNumber`. -/
def normalizeRecordOptionalNonNegativeNumber (value : Option (Option ℚ)) (pointer field : String) :
    Except FlightsError (Option ℚ) :=
  match value with
  | none => .ok none
  | some none => .ok none
  | some (some v) =>
    if 0 ≤ v then .ok (some v)
    else recordFailure pointer field "must be a non-negative number"

/-- Source `normalizeUpsertFlightInput`: per-record validation, index-tagged
error messages via the pointer `records[index]`; monetary amounts are rounded
with `round2` at the end. -/
def normalizeUpsertFlightInput (input : UpsertFlightInput) (index : Nat) :
    Except FlightsError NormalizedFlightRecord := do
  let pointer := s!"records[{index}]"
  let programId ← requireRecordText input.programId pointer "program_id"
  let origin ← requireRecordIata input.origin pointer "origin" (some DEFAULT_ORIGIN)
  let destination ← requireRecordIata (some input.destination) pointer "destination" none
  let flightNumber ← requireRecordText input.flightNumber pointer "flight_number"
  let departureDate ← requireRecordIsoDate input.departureDate pointer "departure_date"
  let departureTime ← requireRecordTime input.departureTime pointer "departure_time"
  let arrivalTime ← requireRecordTime input.arrivalTime pointer "arrival_time"
  let arrivalDayOffset ← normalizeRecordArrivalDayOffset input.arrivalDayOffset pointer
  let durationMinutes ← requireRecordPositiveInt input.durationMinutes pointer "duration_minutes"
  let routeType ← normalizeRecordRouteType input.routeType pointer
  let cabin ← normalizeRecordCabin input.cabin pointer
  let tier ← requireRecordText input.tier pointer "tier"
  let points ← requireRecordPositiveInt input.points pointer "points"
  let available ← normalizeRecordAvailable input.available pointer
  let seatsLeft ← normalizeRecordOptionalNonNegativeInt input.seatsLeft pointer "seats_left"
  let taxesMyr ← requireRecordNonNegativeNumber input.taxesMyr pointer "taxes_myr"
  let cashEquivalentMyr ← normalizeRecordOptionalNonNegativeNumber
      input.cashEquivalentMyr pointer "cash_equivalent_myr"
  .ok { programId := programId, origin := origin, destination := destination,
        flightNumber := flightNumber, departureDate := departureDate,
        departureTime := departureTime, arrivalTime := arrivalTime,
        arrivalDayOffset := arrivalDayOffset, durationMinutes := durationMinutes,
        routeType := routeType, cabin := cabin, tier := tier, points := points,
        available := available, seatsLeft := seatsLeft,
        taxesMyr := round2 taxesMyr,
        cashEquivalentMyr := cashEquivalentMyr.map round2,
        notes := input.notes }

/-- The `for` loop of `upsertFlights` that validates the whole batch, record
by record, before any storage write: records are numbered from `i`. -/
def normalizeAllRecordsFrom (i : Nat) :
    List UpsertFlightInput → Except FlightsError (List NormalizedFlightRecord)
  | [] => .ok []
  | f :: fs => do
    let next ← normalizeUpsertFlightInput f i
    let rest ← normalizeAllRecordsFrom (i + 1) fs
    .ok (next :: rest)

def normalizeAllRecords (flights : List UpsertFlightInput) :
    Except FlightsError (List NormalizedFlightRecord) :=
  normalizeAllRecordsFrom 0 flights

/-- The chunk loop of `upsertFlights`: each chunk is bound into statements and
submitted with one `db.batch` call, sequentially in array order, stopping at
the first storage failure. -/
def runChunks : List (List NormalizedFlightRecord) → Db → Except FlightsError Unit × Db
  | [], db => (.ok (), db)
  | chunk :: rest, db =>
    let statements := chunk.map toUpsertStmt
    match dbBatch statements db with
    | (.error e, db1) => (.error e, db1)
    | (.ok _, db1) => runChunks rest db1

structure UpsertResult where
  upserted : Nat
deriving DecidableEq, Repr

/-- Source `upsertFlights`: batch-size bounds checked first, then full-batch
validation, then chunked sequential writes; returns the count of submitted
records. -/
def upsertFlights (flights : List UpsertFlightInput) (db : Db) :
    Except FlightsError UpsertResult × Db :=
  if flights.length = 0 then
    (validationFailure "Request body must include at least one flight record", db)
  else if flights.length > MAX_UPSERT_RECORDS then
    (validationFailure s!"Maximum {MAX_UPSERT_RECORDS} records allowed per request", db)
  else
    match normalizeAllRecords flights with
    | .error e => (.error e, db)
    | .ok normalized =>
      match runChunks (chunkArray normalized D1_BATCH_SIZE) db with
      | (.error e, db1) => (.error e, db1)
      | (.ok _, db1) => (.ok { upserted := normalized.length }, db1)

/-- Row query of `searchFlights` (WHERE + ORDER BY + LIMIT ? OFFSET ?). -/
def runSelectQuery (w : WhereClause) (sort : SortOrder) (limit offset : ℚ)
    (rows : List FlightRowCols) : List FlightRowCols :=
  ((sortByLE (orderLE sort) (rows.filter (fun r => rowMatches w r))).drop offset.num.toNat).take
    limit.num.toNat

/-- Count query of `searchFlights` (`SELECT COUNT(*) ... WHERE`). -/
def runCountQuery (w : WhereClause) (rows : List FlightRowCols) : Nat :=
  (rows.filter (fun r => rowMatches w r)).length

/-- Source `searchFlights`: normalize, build the WHERE clause once, run the
row query and the count query from that same clause, map rows through
`toAwardFlightRow`. -/
def searchFlights (filters : SearchFlightsInput) (db : Db) :
    Except FlightsError SearchFlightsResult × Db :=
  match normalizeSearchFilters filters with
  | .error e => (.error e, db)
  | .ok normalized =>
    let w := buildWhereClause normalized
    let rows := runSelectQuery w normalized.sort normalized.limit normalized.offset db.rows
    let total := runCountQuery w db.rows
    (.ok { data := rows.map toAwardFlightRow,
           meta := { total := total, limit := normalized.limit, offset := normalized.offset } },
     { db with log := db.log ++ [DbOp.readQuery, DbOp.readQuery] })

/-- Minimum of a list of rationals (SQL `MIN(points)` over a nonempty group;
the empty case never arises for GROUP BY groups). -/
def aggMin : List ℚ → ℚ
  | [] => 0
  | q :: qs => qs.foldl min q

/-- Maximum of a list of rationals (SQL `MAX(points)`). -/
def aggMax : List ℚ → ℚ
  | [] => 0
  | q :: qs => qs.foldl max q

/-- SQL `MIN` over text values: `NULL` on an empty set. -/
def aggMinStr : List JsStr → Option JsStr
  | [] => none
  | s :: ss => some (ss.foldl (fun a b => if sLt b a then b else a) s)

/-- SQL `MAX` over text values: `NULL` on an empty set. -/
def aggMaxStr : List JsStr → Option JsStr
  | [] => none
  | s :: ss => some (ss.foldl (fun a b => if sLt a b then b else a) s)

/-- ORDER BY cabin, tier for the grouped stats query. -/
def pairLe (a b : JsStr × JsStr) : Bool :=
  if sLt a.1 b.1 then true
  else if sLt b.1 a.1 then false
  else sLe a.2 b.2

/-- One result row of the grouped stats query
(`GROUP BY cabin, tier` with MIN/MAX/AVG/COUNT/SUM aggregates). -/
structure StatsGroupRow where
  cabin : JsStr
  tier : JsStr
  min_points : ℚ
  max_points : ℚ
  avg_points : ℚ
  total : Nat
  available_count : Nat
deriving DecidableEq, Repr

/-- Semantics of the grouped aggregate query of `getFlightStats` over the
rows matching the WHERE clause: one row per distinct (cabin, tier) pair,
ordered by cabin then tier. -/
def statsGroupRows (rows : List FlightRowCols) : List StatsGroupRow :=
  let keys := (rows.map (fun r => (r.cabin, r.tier))).dedup
  (sortByLE pairLe keys).map (fun k =>
    let grp := rows.filter (fun r => r.cabin = k.1 && r.tier = k.2)
    { cabin := k.1,
      tier := k.2,
      min_points := aggMin (grp.map (fun r => r.points)),
      max_points := aggMax (grp.map (fun r => r.points)),
      avg_points := (grp.map (fun r => r.points)).sum / (grp.length : ℚ),
      total := grp.length,
      available_count := (grp.filter (fun r => r.available = 1)).length })

/-- Source `TierPointStats` (per-tier aggregate in the API shape). -/
structure TierPointStats where
  min_points : Int
  max_points : Int
  avg_points : ℚ
  available_count : Nat
deriving DecidableEq, Repr

/-- Conversion of one grouped row into the API tier stats, as the loop body of
`getFlightStats` does (`toInt` on min/max, `round2(toNumber(...))` on avg). -/
def toTierPointStats (g : StatsGroupRow) : TierPointStats :=
  { min_points := jsTrunc g.min_points,
    max_points := jsTrunc g.max_points,
    avg_points := round2 g.avg_points,
    available_count := g.available_count }

/-- The `byCabin` accumulator of `getFlightStats`: one tier-keyed object per
cabin. -/
structure ByCabin where
  economy : List (JsStr × TierPointStats)
  business : List (JsStr × TierPointStats)
  first : List (JsStr × TierPointStats)
deriving DecidableEq, Repr

/-- JavaScript object property assignment `obj[tier] = v` on a tier-keyed
object: replaces the value for an existing key in place, appends a new key. -/
def insertTierStats (m : List (JsStr × TierPointStats)) (tier : JsStr) (v : TierPointStats) :
    List (JsStr × TierPointStats) :=
  if m.any (fun p => p.1 = tier) then m.map (fun p => if p.1 = tier then (tier, v) else p)
  else m ++ [(tier, v)]

/-- Loop body of `getFlightStats` building `byCabin`: group rows whose cabin
is not one of economy/business/first or whose tier is falsy are skipped. -/
def byCabinStep (acc : ByCabin) (g : StatsGroupRow) : ByCabin :=
  if !isCabin g.cabin then acc
  else if g.tier = [] then acc
  else if g.cabin = "economy".toList then
    { acc with economy := insertTierStats acc.economy g.tier (toTierPointStats g) }
  else if g.cabin = "business".toList then
    { acc with business := insertTierStats acc.business g.tier (toTierPointStats g) }
  else
    { acc with first := insertTierStats acc.first g.tier (toTierPointStats g) }

def buildByCabin (groups : List StatsGroupRow) : ByCabin :=
  groups.foldl byCabinStep { economy := [], business := [], first := [] }

/-- Source `toNullableObject`: a tier-keyed object with no keys becomes `null`. -/
def toNullableObject (value : List (JsStr × TierPointStats)) :
    Option (List (JsStr × TierPointStats)) :=
  if value.length > 0 then some value else none

/-- Source `FlightStatsResult`. -/
structure FlightStatsResult where
  origin : JsStr
  destination : JsStr
  date_range_from : Option JsStr
  date_range_to : Option JsStr
  economy : Option (List (JsStr × TierPointStats))
  business : Option (List (JsStr × TierPointStats))
  first : Option (List (JsStr × TierPointStats))
  total_flights : Nat
  last_updated : Option JsStr
deriving DecidableEq, Repr

/-- Source `getFlightStats`: normalize the same way as search, build the same
WHERE clause, run the grouped query and the summary query from it, shape the
per-cabin objects (empty object surfaced as `null`), and echo input-stated
date bounds over computed ones. -/
def getFlightStats (filters : SearchFlightsInput) (db : Db) :
    Except FlightsError FlightStatsResult × Db :=
  match normalizeSearchFilters filters with
  | .error e => (.error e, db)
  | .ok normalized =>
    let w := buildWhereClause normalized
    let matching := db.rows.filter (fun r => rowMatches w r)
    let groups := statsGroupRows matching
    let byCabin := buildByCabin groups
    let minDate := aggMinStr (matching.map (fun r => r.departure_date))
    let maxDate := aggMaxStr (matching.map (fun r => r.departure_date))
    let lastUpdated := aggMaxStr (matching.map (fun r => r.updated_at))
    let dateFrom := (normalized.date.orElse (fun _ => normalized.dateFrom)).orElse
      (fun _ => toNullableStringOpt minDate)
    let dateTo := (normalized.date.orElse (fun _ => normalized.dateTo)).orElse
      (fun _ => toNullableStringOpt maxDate)
    (.ok { origin := normalized.origin,
           destination := normalized.destination,
           date_range_from := dateFrom,
           date_range_to := dateTo,
           economy := toNullableObject byCabin.economy,
           business := toNullableObject byCabin.business,
           first := toNullableObject byCabin.first,
           total_flights := matching.length,
           last_updated := toNullableStringOpt lastUpdated },
     { db with log := db.log ++ [DbOp.readQuery, DbOp.readQuery] })

/-- Source `DestinationsInput`. -/
structure DestinationsInput where
  origin : Option JsStr
  dateFrom : Option JsStr
  dateTo : Option JsStr
  cabin : Option JsStr
  availableOnly : Option (Option Bool)
deriving DecidableEq, Repr

/-- Normalization and WHERE construction of `getDestinations` (the inline
`where`/`params` arrays of the source, before the GROUP BY destination query). -/
def getDestinationsClause (input : DestinationsInput) :
    Except FlightsError (List String × List SqlParam) := do
  let origin ← requireIataField input.origin "origin" (some DEFAULT_ORIGIN)
  let dates ← normalizeDateFilters none input.dateFrom input.dateTo
  let cabin ← normalizeCabinField input.cabin
  let availableOnly ← normalizeAvailableOnly input.availableOnly
  let base : List String × List SqlParam := (["origin = ?"], [SqlParam.str origin])
  .ok (pushIf availableOnly "available = 1" []
    (pushIf (optTruthy cabin) "cabin = ?" [SqlParam.str (cabin.getD [])]
      (pushIf (optTruthy dates.dateTo) "departure_date <= ?"
        [SqlParam.str (dates.dateTo.getD [])]
        (pushIf (optTruthy dates.dateFrom) "departure_date >= ?"
          [SqlParam.str (dates.dateFrom.getD [])] base))))

/-- Source `CheapestByDateInput`. -/
structure CheapestByDateInput where
  destination : JsStr
  origin : Option JsStr
  dateFrom : Option JsStr
  dateTo : Option JsStr
  cabin : Option JsStr
  programId : Option JsStr
  availableOnly : Option (Option Bool)
deriving DecidableEq, Repr

/-- Normalization and WHERE construction of `getCheapestByDate` (the inline
`where`/`params` arrays of the source, before the GROUP BY departure_date query). -/
def getCheapestByDateClause (input : CheapestByDateInput) :
    Except FlightsError (List String × List SqlParam) := do
  let destination ← requireIataField (some input.destination) "destination" none
  let origin ← requireIataField input.origin "origin" (some DEFAULT_ORIGIN)
  let dates ← normalizeDateFilters none input.dateFrom input.dateTo
  let cabin ← normalizeCabinField input.cabin
  let programId := normalizeOptionalString input.programId
  let availableOnly ← normalizeAvailableOnly input.availableOnly
  let base : List String × List SqlParam :=
    (["origin = ?", "destination = ?"], [SqlParam.str origin, SqlParam.str destination])
  .ok (pushIf availableOnly "available = 1" []
    (pushIf (optTruthy programId) "program_id = ?" [SqlParam.str (programId.getD [])]
      (pushIf (optTruthy cabin) "cabin = ?" [SqlParam.str (cabin.getD [])]
        (pushIf (optTruthy dates.dateTo) "departure_date <= ?"
          [SqlParam.str (dates.dateTo.getD [])]
          (pushIf (optTruthy dates.dateFrom) "departure_date >= ?"
            [SqlParam.str (dates.dateFrom.getD [])] base)))))

/-- Claimed ordering chain on returned rows for `sort=points`:
points ascending, then departure date ascending, then departure time
ascending. -/
def apiLePoints (a b : AwardFlightRow) : Bool :=
  if a.points < b.points then true
  else if b.points < a.points then false
  else if sLt a.departure_date b.departure_date then true
  else if sLt b.departure_date a.departure_date then false
  else sLe a.departure_time b.departure_time

/-- Claimed ordering chain on returned rows for `sort=date` (the default):
departure date ascending, then departure time ascending, then points
ascending. -/
def apiLeDate (a b : AwardFlightRow) : Bool :=
  if sLt a.departure_date b.departure_date then true
  else if sLt b.departure_date a.departure_date then false
  else if sLt a.departure_time b.departure_time then true
  else if sLt b.departure_time a.departure_time then false
  else a.points ≤ b.points

/-- Concrete KUL→AKL economy row used by the witnesses (Scenario A store). -/
def sampleRow (id : Nat) (points : ℚ) (dep dtime : JsStr) : FlightRowCols :=
  { id := id, program_id := "enrich".toList, origin := "KUL".toList,
    destination := "AKL".toList, flight_number := "MH145".toList,
    departure_date := dep, departure_time := dtime, arrival_time := "08:00".toList,
    arrival_day_offset := 0, duration_minutes := 600, route_type := "direct".toList,
    cabin := "economy".toList, tier := "saver".toList, points := points, available := 1,
    seats_left := none, taxes_myr := 0, cash_equivalent_myr := none, notes := none,
    created_at := "2025-01-01 00:00:00".toList, updated_at := "2025-01-01 00:00:00".toList }

/-- Concrete store with three KUL→AKL economy rows, points 45000/30000/60000. -/
def sampleDb : Db :=
  { rows := [sampleRow 1 45000 "2025-03-01".toList "09:00".toList,
             sampleRow 2 30000 "2025-03-02".toList "10:00".toList,
             sampleRow 3 60000 "2025-03-03".toList "11:00".toList],
    nextId := 4, now := "2025-06-01 00:00:00".toList,
    batchFails := fun _ => false, batchIndex := 0, log := [] }

/-- Scenario A search input: destination AKL, origin KUL, cabin economy,
sort points, limit 2. -/
def sampleSearchInput : SearchFlightsInput :=
  { destination := "AKL".toList, origin := some "KUL".toList, date := none,
    dateFrom := none, dateTo := none, cabin := some "economy".toList, tier := none,
    programId := none, availableOnly := none, pointsMax := none, pointsMin := none,
    sort := some "points".toList, limit := some (some 2), offset := none }

/-- Concrete valid upsert record used by the witnesses. -/
def sampleUpsertRecord : UpsertFlightInput :=
  { programId := "enrich".toList, origin := some "KUL".toList,
    destination := "AKL".toList, flightNumber := "MH145".toList,
    departureDate := "2025-03-01".toList, departureTime := "09:00".toList,
    arrivalTime := "20:30".toList, arrivalDayOffset := some (some 1),
    durationMinutes := some 630, routeType := "direct".toList,
    cabin := "economy".toList, tier := "saver".toList, points := some 30000,
    available := some (some true), seatsLeft := some (some 4),
    taxesMyr := some 250, cashEquivalentMyr := none, notes := none }

/-- Value `sampleUpsertRecord` normalizes to. -/
def sampleNormalizedRecord : NormalizedFlightRecord :=
  { programId := "enrich".toList, origin := "KUL".toList,
    destination := "AKL".toList, flightNumber := "MH145".toList,
    departureDate := "2025-03-01".toList, departureTime := "09:00".toList,
    arrivalTime := "20:30".toList, arrivalDayOffset := 1,
    durationMinutes := 630, routeType := "direct".toList,
    cabin := "economy".toList, tier := "saver".toList, points := 30000,
    available := true, seatsLeft := some 4,
    taxesMyr := round2 250, cashEquivalentMyr := none, notes := none }

/-- Invalid upsert record (blank program id) used by the witnesses. -/
def sampleBadRecord : UpsertFlightInput :=
  { sampleUpsertRecord with programId := [] }

/-- Store whose second batched write call fails, used by the C5 witness. -/
def sampleFailingDb : Db :=
  { rows := [], nextId := 1, now := "2025-06-01 00:00:00".toList,
    batchFails := fun k => k = 1, batchIndex := 0, log := [] }

/-- Concrete upsert statement sharing its compound key with `sampleRow 1`. -/
def sampleConflictStmt : UpsertStmt :=
  toUpsertStmt { sampleNormalizedRecord with points := 40000 }

/-- Normalized filters of `sampleSearchInput`. -/
def sampleNormalizedFilters : NormalizedSearchFilters :=
  { destination := "AKL".toList, origin := "KUL".toList, date := none,
    dateFrom := none, dateTo := none, cabin := some "economy".toList, tier := none,
    programId := none, availableOnly := true, pointsMax := none, pointsMin := none,
    sort := .points, limit := 2, offset := 0 }

theorem sLt_irrefl (a : JsStr) : sLt a a = false := by
  induction a with
  | nil => rfl
  | cons c cs ih => simp [sLt, ih]

theorem sLt_asymm (a : JsStr) : ∀ b, sLt a b = true → sLt b a = false := by
  induction a with
  | nil =>
    intro b h
    cases b with
    | nil => simp [sLt] at h
    | cons d ds => simp [sLt]
  | cons c cs ih =>
    intro b h
    cases b with
    | nil => simp [sLt] at h
    | cons d ds =>
      simp only [sLt] at h ⊢
      rcases lt_trichotomy c d with hlt | heq | hgt
      · simp [hlt, asymm hlt]
      · subst heq
        simp only [lt_irrefl, if_false] at h ⊢
        exact ih ds h
      · simp [hgt, asymm hgt] at h

theorem sLt_connex (a : JsStr) : ∀ b, sLt a b = false → sLt b a = false → a = b := by
  induction a with
  | nil =>
    intro b h1 _
    cases b with
    | nil => rfl
    | cons d ds => simp [sLt] at h1
  | cons c cs ih =>
    intro b h1 h2
    cases b with
    | nil => simp [sLt] at h2
    | cons d ds =>
      simp only [sLt] at h1 h2
      rcases lt_trichotomy c d with hlt | heq | hgt
      · simp [hlt] at h1
      · subst heq
        simp only [lt_irrefl, if_false] at h1 h2
        exact congrArg (c :: ·) (ih ds h1 h2)
      · simp [hgt] at h2

theorem sLt_trans (a : JsStr) : ∀ b c, sLt a b = true → sLt b c = true → sLt a c = true := by
  induction a with
  | nil =>
    intro b c _ h2
    cases b with
    | nil => cases c with
      | nil => exact h2
      | cons _ _ => simp [sLt]
    | cons d ds => cases c with
      | nil => simp [sLt] at h2
      | cons _ _ => simp [sLt]
  | cons x xs ih =>
    intro b c h1 h2
    cases b with
    | nil => simp [sLt] at h1
    | cons y ys =>
      cases c with
      | nil => simp [sLt] at h2
      | cons z zs =>
        simp only [sLt] at h1 h2 ⊢
        rcases lt_trichotomy x y with hxy | hxy | hxy
        · rcases lt_trichotomy y z with hyz | hyz | hyz
          · simp [lt_trans hxy hyz, asymm (lt_trans hxy hyz)]
          · subst hyz; simp [hxy, asymm hxy]
          · simp [hyz, asymm hyz] at h2
        · subst hxy
          rcases lt_trichotomy x z with hyz | hyz | hyz
          · simp [hyz, asymm hyz]
          · subst hyz
            simp only [lt_irrefl, if_false] at h1 h2 ⊢
            exact ih ys zs h1 h2
          · simp [hyz, asymm hyz] at h2
        · simp [hxy, asymm hxy] at h1

theorem sLe_total (a b : JsStr) : sLe a b = true ∨ sLe b a = true := by
  unfold sLe
  rcases h : sLt b a with hf | ht
  · left; rfl
  · right
    rw [sLt_asymm b a h]
    rfl

theorem length_insertSorted (le : α → α → Bool) (a : α) (l : List α) :
    (insertSorted le a l).length = l.length + 1 := by
  induction l with
  | nil => rfl
  | cons b bs ih =>
    simp only [insertSorted]
    split_ifs <;> simp [List.length_cons, ih]

theorem length_sortByLE (le : α → α → Bool) (l : List α) :
    (sortByLE le l).length = l.length := by
  induction l with
  | nil => rfl
  | cons a as ih => simp [sortByLE, length_insertSorted, ih]

theorem mem_insertSorted (le : α → α → Bool) (a x : α) (l : List α) :
    x ∈ insertSorted le a l ↔ x = a ∨ x ∈ l := by
  induction l with
  | nil => simp [insertSorted]
  | cons b bs ih =>
    simp only [insertSorted]
    split_ifs with h
    · simp [List.mem_cons]
    · simp only [List.mem_cons, ih]
      tauto

theorem mem_sortByLE (le : α → α → Bool) (x : α) (l : List α) :
    x ∈ sortByLE le l ↔ x ∈ l := by
  induction l with
  | nil => simp [sortByLE]
  | cons a as ih => simp [sortByLE, mem_insertSorted, ih]

theorem pairwise_insertSorted (le : α → α → Bool)
    (htotal : ∀ x y, le x y = true ∨ le y x = true)
    (htrans : ∀ x y z, le x y = true → le y z = true → le x z = true)
    (a : α) (l : List α) (h : l.Pairwise (fun x y => le x y = true)) :
    (insertSorted le a l).Pairwise (fun x y => le x y = true) := by
  induction l with
  | nil => simp [insertSorted]
  | cons b bs ih =>
    rcases List.pairwise_cons.mp h with ⟨hb, hbs⟩
    simp only [insertSorted]
    split_ifs with hab
    · refine List.pairwise_cons.mpr ⟨?_, h⟩
      intro x hx
      rcases List.mem_cons.mp hx with rfl | hxbs
      · exact hab
      · exact htrans a b x hab (hb x hxbs)
    · refine List.pairwise_cons.mpr ⟨?_, ih hbs⟩
      intro x hx
      rcases (mem_insertSorted le a x bs).mp hx with heq | hxbs
      · subst heq
        rcases htotal x b with h1 | h1
        · exact absurd h1 hab
        · exact h1
      · exact hb x hxbs

theorem pairwise_sortByLE (le : α → α → Bool)
    (htotal : ∀ x y, le x y = true ∨ le y x = true)
    (htrans : ∀ x y z, le x y = true → le y z = true → le x z = true)
    (l : List α) : (sortByLE le l).Pairwise (fun x y => le x y = true) := by
  induction l with
  | nil => simp [sortByLE]
  | cons a as ih => exact pairwise_insertSorted le htotal htrans a (sortByLE le as) ih

theorem rowLePoints_eq_true_iff (a b : FlightRowCols) : rowLePoints a b = true ↔
    (a.points < b.points ∨
      (a.points = b.points ∧
        (sLt a.departure_date b.departure_date = true ∨
          (a.departure_date = b.departure_date ∧
            sLe a.departure_time b.departure_time = true)))) := by
  unfold rowLePoints
  split_ifs with h1 h2 h3 h4
  · simp [h1]
  · have : a.points ≠ b.points := ne_of_gt h2
    simp [h1, this]
  · have heq : a.points = b.points := le_antisymm (not_lt.mp h2) (not_lt.mp h1)
    simp [heq, h3, lt_irrefl]
  · have heq : a.points = b.points := le_antisymm (not_lt.mp h2) (not_lt.mp h1)
    have hne : a.departure_date ≠ b.departure_date := by
      intro hcontra
      rw [hcontra] at h4
      simp [sLt_irrefl] at h4
    simp [heq, h3, h4, hne, lt_irrefl]
  · have heq : a.points = b.points := le_antisymm (not_lt.mp h2) (not_lt.mp h1)
    have hdd : a.departure_date = b.departure_date :=
      sLt_connex _ _ (Bool.eq_false_iff.mpr h3) (Bool.eq_false_iff.mpr h4)
    simp [heq, h3, hdd, lt_irrefl, sLt_irrefl]

theorem rowLeDate_eq_true_iff (a b : FlightRowCols) : rowLeDate a b = true ↔
    (sLt a.departure_date b.departure_date = true ∨
      (a.departure_date = b.departure_date ∧
        (sLt a.departure_time b.departure_time = true ∨
          (a.departure_time = b.departure_time ∧ a.points ≤ b.points)))) := by
  unfold rowLeDate
  split_ifs with h1 h2 h3 h4
  · simp [h1]
  · have hne : a.departure_date ≠ b.departure_date := by
      intro hcontra
      rw [hcontra] at h2
      simp [sLt_irrefl] at h2
    simp [h1, hne]
  · have hdd : a.departure_date = b.departure_date :=
      sLt_connex _ _ (Bool.eq_false_iff.mpr h1) (Bool.eq_false_iff.mpr h2)
    simp [hdd, h3, sLt_irrefl]
  · have hdd : a.departure_date = b.departure_date :=
      sLt_connex _ _ (Bool.eq_false_iff.mpr h1) (Bool.eq_false_iff.mpr h2)
    have hne : a.departure_time ≠ b.departure_time := by
      intro hcontra
      rw [hcontra] at h4
      simp [sLt_irrefl] at h4
    simp [hdd, h3, h4, hne, sLt_irrefl]
  · have hdd : a.departure_date = b.departure_date :=
      sLt_connex _ _ (Bool.eq_false_iff.mpr h1) (Bool.eq_false_iff.mpr h2)
    have hdt : a.departure_time = b.departure_time :=
      sLt_connex _ _ (Bool.eq_false_iff.mpr h3) (Bool.eq_false_iff.mpr h4)
    simp [hdd, hdt, h3, sLt_irrefl, decide_eq_true_iff]

theorem sLe_trans (a b c : JsStr) (h1 : sLe a b = true) (h2 : sLe b c = true) :
    sLe a c = true := by
  unfold sLe at h1 h2 ⊢
  rw [Bool.not_eq_true'] at h1 h2
  rw [Bool.not_eq_true']
  by_contra hne
  have hca : sLt c a = true := by
    cases h : sLt c a with
    | true => rfl
    | false => exact absurd h hne
  cases hbc : sLt b c with
  | true => exact absurd (sLt_trans b c a hbc hca) (by simp [h1])
  | false =>
    have hbceq : b = c := sLt_connex b c hbc h2
    rw [hbceq] at h1
    exact absurd hca (by simp [h1])

theorem sLe_refl (a : JsStr) : sLe a a = true := by
  unfold sLe
  simp [sLt_irrefl]

theorem rowLePoints_total (a b : FlightRowCols) :
    rowLePoints a b = true ∨ rowLePoints b a = true := by
  rw [rowLePoints_eq_true_iff, rowLePoints_eq_true_iff]
  rcases lt_trichotomy a.points b.points with hp | hp | hp
  · exact Or.inl (Or.inl hp)
  · rcases Bool.eq_false_or_eq_true (sLt a.departure_date b.departure_date) with hd1 | hd1
    · exact Or.inl (Or.inr ⟨hp, Or.inl hd1⟩)
    · rcases Bool.eq_false_or_eq_true (sLt b.departure_date a.departure_date) with hd2 | hd2
      · exact Or.inr (Or.inr ⟨hp.symm, Or.inl hd2⟩)
      · have hdd : a.departure_date = b.departure_date := sLt_connex _ _ hd1 hd2
        rcases sLe_total a.departure_time b.departure_time with ht | ht
        · exact Or.inl (Or.inr ⟨hp, Or.inr ⟨hdd, ht⟩⟩)
        · exact Or.inr (Or.inr ⟨hp.symm, Or.inr ⟨hdd.symm, ht⟩⟩)
  · exact Or.inr (Or.inl hp)

theorem rowLePoints_trans (a b c : FlightRowCols) (h1 : rowLePoints a b = true)
    (h2 : rowLePoints b c = true) : rowLePoints a c = true := by
  rw [rowLePoints_eq_true_iff] at h1 h2 ⊢
  rcases h1 with hp1 | ⟨hp1, hrest1⟩
  · rcases h2 with hp2 | ⟨hp2, _⟩
    · exact Or.inl (lt_trans hp1 hp2)
    · exact Or.inl (hp2 ▸ hp1)
  · rcases h2 with hp2 | ⟨hp2, hrest2⟩
    · exact Or.inl (hp1 ▸ hp2)
    · refine Or.inr ⟨hp1.trans hp2, ?_⟩
      rcases hrest1 with hd1 | ⟨hd1, ht1⟩
      · rcases hrest2 with hd2 | ⟨hd2, _⟩
        · exact Or.inl (sLt_trans _ _ _ hd1 hd2)
        · exact Or.inl (hd2 ▸ hd1)
      · rcases hrest2 with hd2 | ⟨hd2, ht2⟩
        · exact Or.inl (hd1 ▸ hd2)
        · exact Or.inr ⟨hd1.trans hd2, sLe_trans _ _ _ ht1 ht2⟩

theorem rowLeDate_total (a b : FlightRowCols) :
    rowLeDate a b = true ∨ rowLeDate b a = true := by
  rw [rowLeDate_eq_true_iff, rowLeDate_eq_true_iff]
  rcases Bool.eq_false_or_eq_true (sLt a.departure_date b.departure_date) with hd1 | hd1
  · exact Or.inl (Or.inl hd1)
  · rcases Bool.eq_false_or_eq_true (sLt b.departure_date a.departure_date) with hd2 | hd2
    · exact Or.inr (Or.inl hd2)
    · have hdd : a.departure_date = b.departure_date := sLt_connex _ _ hd1 hd2
      rcases Bool.eq_false_or_eq_true (sLt a.departure_time b.departure_time) with ht1 | ht1
      · exact Or.inl (Or.inr ⟨hdd, Or.inl ht1⟩)
      · rcases Bool.eq_false_or_eq_true (sLt b.departure_time a.departure_time) with ht2 | ht2
        · exact Or.inr (Or.inr ⟨hdd.symm, Or.inl ht2⟩)
        · have hdt : a.departure_time = b.departure_time := sLt_connex _ _ ht1 ht2
          rcases le_total a.points b.points with hq | hq
          · exact Or.inl (Or.inr ⟨hdd, Or.inr ⟨hdt, hq⟩⟩)
          · exact Or.inr (Or.inr ⟨hdd.symm, Or.inr ⟨hdt.symm, hq⟩⟩)

theorem rowLeDate_trans (a b c : FlightRowCols) (h1 : rowLeDate a b = true)
    (h2 : rowLeDate b c = true) : rowLeDate a c = true := by
  rw [rowLeDate_eq_true_iff] at h1 h2 ⊢
  rcases h1 with hd1 | ⟨hd1, hrest1⟩
  · rcases h2 with hd2 | ⟨hd2, _⟩
    · exact Or.inl (sLt_trans _ _ _ hd1 hd2)
    · exact Or.inl (hd2 ▸ hd1)
  · rcases h2 with hd2 | ⟨hd2, hrest2⟩
    · exact Or.inl (hd1 ▸ hd2)
    · refine Or.inr ⟨hd1.trans hd2, ?_⟩
      rcases hrest1 with ht1 | ⟨ht1, hq1⟩
      · rcases hrest2 with ht2 | ⟨ht2, _⟩
        · exact Or.inl (sLt_trans _ _ _ ht1 ht2)
        · exact Or.inl (ht2 ▸ ht1)
      · rcases hrest2 with ht2 | ⟨ht2, hq2⟩
        · exact Or.inl (ht1 ▸ ht2)
        · exact Or.inr ⟨ht1.trans ht2, le_trans hq1 hq2⟩

theorem orderLE_total (s : SortOrder) (a b : FlightRowCols) :
    orderLE s a b = true ∨ orderLE s b a = true := by
  cases s with
  | date => exact rowLeDate_total a b
  | points => exact rowLePoints_total a b

theorem orderLE_trans (s : SortOrder) (a b c : FlightRowCols)
    (h1 : orderLE s a b = true) (h2 : orderLE s b c = true) : orderLE s a c = true := by
  cases s with
  | date => exact rowLeDate_trans a b c h1 h2
  | points => exact rowLePoints_trans a b c h1 h2

/-- C1: for every valid search filter set, the row-fetch query and the count
query of `searchFlights` are built from the identical WHERE clause
(`buildWhereClause`) and parameter list, and `meta.total` equals the number of
rows satisfying the filter predicate, which is the number of rows an
unlimited, unpaginated fetch would return. -/
theorem searchFlights_count_fetch_consistent
    (input : SearchFlightsInput) (db : Db) (n : NormalizedSearchFilters)
    (h : normalizeSearchFilters input = .ok n) :
    ∃ res,
      searchFlights input db =
        (.ok res, { db with log := db.log ++ [DbOp.readQuery, DbOp.readQuery] }) ∧
      res.meta.total = runCountQuery (buildWhereClause n) db.rows ∧
      res.meta.total =
        (sortByLE (orderLE n.sort)
          (db.rows.filter (fun r => rowMatches (buildWhereClause n) r))).length ∧
      res.data =
        (runSelectQuery (buildWhereClause n) n.sort n.limit n.offset db.rows).map
          toAwardFlightRow := by
  have hs : searchFlights input db =
      (.ok { data := (runSelectQuery (buildWhereClause n) n.sort n.limit n.offset
                db.rows).map toAwardFlightRow,
             meta := { total := runCountQuery (buildWhereClause n) db.rows,
                       limit := n.limit, offset := n.offset } },
       { db with log := db.log ++ [DbOp.readQuery, DbOp.readQuery] }) := by
    unfold searchFlights
    rw [h]
  refine ⟨_, hs, rfl, ?_, rfl⟩
  unfold runCountQuery
  rw [length_sortByLE]

/-- Witness for C1 at the Scenario A input and store. -/
theorem searchFlights_count_fetch_consistent_witness :
    ∃ res,
      searchFlights sampleSearchInput sampleDb =
        (.ok res, { sampleDb with
          log := sampleDb.log ++ [DbOp.readQuery, DbOp.readQuery] }) ∧
      res.meta.total = runCountQuery (buildWhereClause sampleNormalizedFilters) sampleDb.rows ∧
      res.meta.total =
        (sortByLE (orderLE sampleNormalizedFilters.sort)
          (sampleDb.rows.filter
            (fun r => rowMatches (buildWhereClause sampleNormalizedFilters) r))).length ∧
      res.data =
        (runSelectQuery (buildWhereClause sampleNormalizedFilters)
          sampleNormalizedFilters.sort sampleNormalizedFilters.limit
          sampleNormalizedFilters.offset sampleDb.rows).map toAwardFlightRow :=
  searchFlights_count_fetch_consistent sampleSearchInput sampleDb sampleNormalizedFilters
    (by rfl)

theorem except_ok_bind (a : α) (f : α → Except ε β) : (Except.ok a >>= f) = f a := rfl

theorem except_error_bind (e : ε) (f : α → Except ε β) :
    ((Except.error e : Except ε α) >>= f) = .error e := rfl

theorem normalizeDateFilters_mutual_exclusion
    (dateInput fromInput toInput : Option JsStr)
    (hd : optTruthy (normalizeOptionalString dateInput) = true)
    (hr : optTruthy (normalizeOptionalString fromInput) = true ∨
          optTruthy (normalizeOptionalString toInput) = true) :
    normalizeDateFilters dateInput fromInput toInput =
      .error (.validation "date cannot be combined with date_from/date_to") := by
  unfold normalizeDateFilters
  have hcond : (optTruthy (normalizeOptionalString dateInput) &&
      (optTruthy (normalizeOptionalString fromInput) ||
        optTruthy (normalizeOptionalString toInput))) = true := by
    rcases hr with h | h <;> simp [hd, h]
  simp [hcond, validationFailure]

/-- C3: on every search or stats input where a single date and at least one
range end are present (non-empty after trimming), and destination/origin pass
their IATA checks, normalization fails with the mutual-exclusion
ValidationError — regardless of every remaining filter — and neither
`searchFlights` nor `getFlightStats` touches the store (the returned store
state, including its operation log, is the input state). -/
theorem searchFilters_date_mutual_exclusion
    (input : SearchFlightsInput) (db : Db) (d o : JsStr)
    (hdest : requireIataField (some input.destination) "destination" none = .ok d)
    (horig : requireIataField input.origin "origin" (some DEFAULT_ORIGIN) = .ok o)
    (hdate : optTruthy (normalizeOptionalString input.date) = true)
    (hrange : optTruthy (normalizeOptionalString input.dateFrom) = true ∨
              optTruthy (normalizeOptionalString input.dateTo) = true) :
    normalizeSearchFilters input =
      .error (.validation "date cannot be combined with date_from/date_to") ∧
    searchFlights input db =
      (.error (.validation "date cannot be combined with date_from/date_to"), db) ∧
    getFlightStats input db =
      (.error (.validation "date cannot be combined with date_from/date_to"), db) := by
  have hnorm : normalizeSearchFilters input =
      .error (.validation "date cannot be combined with date_from/date_to") := by
    unfold normalizeSearchFilters
    rw [hdest, except_ok_bind, horig, except_ok_bind,
      normalizeDateFilters_mutual_exclusion input.date input.dateFrom input.dateTo hdate hrange,
      except_error_bind]
  refine ⟨hnorm, ?_, ?_⟩
  · unfold searchFlights
    rw [hnorm]
  · unfold getFlightStats
    rw [hnorm]

/-- Witness for C3: Scenario A input with both a single date and a range start. -/
theorem searchFilters_date_mutual_exclusion_witness :
    normalizeSearchFilters { sampleSearchInput with
        date := some "2025-03-01".toList, dateFrom := some "2025-03-02".toList } =
      .error (.validation "date cannot be combined with date_from/date_to") ∧
    searchFlights { sampleSearchInput with
        date := some "2025-03-01".toList, dateFrom := some "2025-03-02".toList } sampleDb =
      (.error (.validation "date cannot be combined with date_from/date_to"), sampleDb) ∧
    getFlightStats { sampleSearchInput with
        date := some "2025-03-01".toList, dateFrom := some "2025-03-02".toList } sampleDb =
      (.error (.validation "date cannot be combined with date_from/date_to"), sampleDb) :=
  searchFilters_date_mutual_exclusion
    { sampleSearchInput with
        date := some "2025-03-01".toList, dateFrom := some "2025-03-02".toList }
    sampleDb "AKL".toList "KUL".toList (by rfl) (by rfl) (by rfl) (Or.inl (by rfl))

/-- C4: when an upserted statement conflicts with an existing row on the
compound unique key, the write updates only the mutable columns and refreshes
`updated_at`; the seven key columns and `created_at` (and the row id) are left
unchanged, the table gains no row, and non-matching rows are untouched. -/
theorem upsert_conflict_updates_only_mutable
    (rows : List FlightRowCols) (nextId : Nat) (now : JsStr) (s : UpsertStmt)
    (hconflict : rows.any (fun r => stmtKeyMatches s r) = true) :
    (applyUpsertStmt now (rows, nextId) s).1.length = rows.length ∧
    (applyUpsertStmt now (rows, nextId) s).2 = nextId ∧
    (applyUpsertStmt now (rows, nextId) s).1 =
      rows.map (fun r => if stmtKeyMatches s r then applyConflictUpdate s now r else r) ∧
    (∀ r : FlightRowCols, stmtKeyMatches s r = true →
      (applyConflictUpdate s now r).program_id = r.program_id ∧
      (applyConflictUpdate s now r).origin = r.origin ∧
      (applyConflictUpdate s now r).destination = r.destination ∧
      (applyConflictUpdate s now r).flight_number = r.flight_number ∧
      (applyConflictUpdate s now r).departure_date = r.departure_date ∧
      (applyConflictUpdate s now r).cabin = r.cabin ∧
      (applyConflictUpdate s now r).tier = r.tier ∧
      (applyConflictUpdate s now r).created_at = r.created_at ∧
      (applyConflictUpdate s now r).id = r.id ∧
      (applyConflictUpdate s now r).departure_time = s.departureTime ∧
      (applyConflictUpdate s now r).arrival_time = s.arrivalTime ∧
      (applyConflictUpdate s now r).arrival_day_offset = s.arrivalDayOffset ∧
      (applyConflictUpdate s now r).duration_minutes = s.durationMinutes ∧
      (applyConflictUpdate s now r).route_type = s.routeType ∧
      (applyConflictUpdate s now r).points = s.points ∧
      (applyConflictUpdate s now r).available = s.available ∧
      (applyConflictUpdate s now r).seats_left = s.seatsLeft ∧
      (applyConflictUpdate s now r).taxes_myr = s.taxesMyr ∧
      (applyConflictUpdate s now r).cash_equivalent_myr = s.cashEquivalentMyr ∧
      (applyConflictUpdate s now r).notes = s.notes ∧
      (applyConflictUpdate s now r).updated_at = now) := by
  refine ⟨?_, ?_, ?_, ?_⟩
  · simp [applyUpsertStmt, hconflict]
  · simp [applyUpsertStmt, hconflict]
  · simp [applyUpsertStmt, hconflict]
  · intro r _
    refine ⟨rfl, rfl, rfl, rfl, rfl, rfl, rfl, rfl, rfl, rfl, rfl, rfl, rfl, rfl, rfl,
      rfl, rfl, rfl, rfl, rfl, rfl⟩

/-- Witness for C4: resubmitting the Scenario A key with points changed to
40000 against the sample store. -/
theorem upsert_conflict_updates_only_mutable_witness :
    (applyUpsertStmt ("2025-06-01 00:00:00".toList) (sampleDb.rows, 4)
        sampleConflictStmt).1.length = sampleDb.rows.length ∧
    (applyUpsertStmt ("2025-06-01 00:00:00".toList) (sampleDb.rows, 4)
        sampleConflictStmt).2 = 4 ∧
    stmtKeyMatches sampleConflictStmt (sampleRow 1 45000 "2025-03-01".toList "09:00".toList)
      = true ∧
    (applyConflictUpdate sampleConflictStmt ("2025-06-01 00:00:00".toList)
        (sampleRow 1 45000 "2025-03-01".toList "09:00".toList)).created_at =
      (sampleRow 1 45000 "2025-03-01".toList "09:00".toList).created_at ∧
    (applyConflictUpdate sampleConflictStmt ("2025-06-01 00:00:00".toList)
        (sampleRow 1 45000 "2025-03-01".toList "09:00".toList)).points =
      sampleConflictStmt.points := by
  have h := upsert_conflict_updates_only_mutable sampleDb.rows 4
    ("2025-06-01 00:00:00".toList) sampleConflictStmt (by decide)
  have hkey : stmtKeyMatches sampleConflictStmt
      (sampleRow 1 45000 "2025-03-01".toList "09:00".toList) = true := by decide
  have hfields := h.2.2.2 (sampleRow 1 45000 "2025-03-01".toList "09:00".toList) hkey
  exact ⟨h.1, h.2.1, hkey, hfields.2.2.2.2.2.2.2.1, hfields.2.2.2.2.2.2.2.2.2.2.2.2.2.2.1⟩

theorem normalizeAllRecordsFrom_length (flights : List UpsertFlightInput) :
    ∀ (i : Nat) (nr : List NormalizedFlightRecord),
      normalizeAllRecordsFrom i flights = .ok nr → nr.length = flights.length := by
  induction flights with
  | nil =>
    intro i nr h
    simp only [normalizeAllRecordsFrom] at h
    cases h
    rfl
  | cons f fs ih =>
    intro i nr h
    simp only [normalizeAllRecordsFrom] at h
    cases hf : normalizeUpsertFlightInput f i with
    | error e => rw [hf, except_error_bind] at h; cases h
    | ok next =>
      rw [hf, except_ok_bind] at h
      cases hrest : normalizeAllRecordsFrom (i + 1) fs with
      | error e => rw [hrest, except_error_bind] at h; cases h
      | ok rest =>
        rw [hrest, except_ok_bind] at h
        cases h
        simp [ih (i + 1) rest hrest]

theorem runChunks_no_failure (chunks : List (List NormalizedFlightRecord)) :
    ∀ db : Db, (∀ j, j < chunks.length → db.batchFails (db.batchIndex + j) = false) →
    (runChunks chunks db).1 = .ok () ∧
    (runChunks chunks db).2.log =
      db.log ++ chunks.map (fun c => DbOp.batchWrite (c.map toUpsertStmt)) ∧
    (runChunks chunks db).2.batchIndex = db.batchIndex + chunks.length ∧
    (runChunks chunks db).2.batchFails = db.batchFails := by
  induction chunks with
  | nil =>
    intro db _
    simp [runChunks]
  | cons c cs ih =>
    intro db h
    have h0 : db.batchFails db.batchIndex = false := by
      simpa using h 0 (by simp)
    have hstep : runChunks (c :: cs) db = runChunks cs
        { db with log := db.log ++ [DbOp.batchWrite (c.map toUpsertStmt)],
                  batchIndex := db.batchIndex + 1,
                  rows := ((c.map toUpsertStmt).foldl (applyUpsertStmt db.now)
                    (db.rows, db.nextId)).1,
                  nextId := ((c.map toUpsertStmt).foldl (applyUpsertStmt db.now)
                    (db.rows, db.nextId)).2 } := by
      simp [runChunks, dbBatch, h0]
    rw [hstep]
    have hrec := ih
      { db with log := db.log ++ [DbOp.batchWrite (c.map toUpsertStmt)],
                batchIndex := db.batchIndex + 1,
                rows := ((c.map toUpsertStmt).foldl (applyUpsertStmt db.now)
                  (db.rows, db.nextId)).1,
                nextId := ((c.map toUpsertStmt).foldl (applyUpsertStmt db.now)
                  (db.rows, db.nextId)).2 }
      (by
        intro j hj
        have hh := h (j + 1) (by simpa using Nat.succ_lt_succ hj)
        simpa [Nat.add_assoc, Nat.add_comm 1 j] using hh)
    refine ⟨hrec.1, ?_, ?_, hrec.2.2.2⟩
    · rw [hrec.2.1]
      simp
    · rw [hrec.2.2.1]
      simp
      omega

theorem runChunks_failure (chunks : List (List NormalizedFlightRecord)) :
    ∀ (db : Db) (n : Nat), n < chunks.length →
    db.batchFails (db.batchIndex + n) = true →
    (∀ j, j < n → db.batchFails (db.batchIndex + j) = false) →
    (runChunks chunks db).1 = .error (.database "Failed to upsert award flights") ∧
    (runChunks chunks db).2.log =
      db.log ++ (chunks.take (n + 1)).map (fun c => DbOp.batchWrite (c.map toUpsertStmt)) := by
  induction chunks with
  | nil =>
    intro db n hn
    simp at hn
  | cons c cs ih =>
    intro db n hn hfail hok
    cases n with
    | zero =>
      have h0 : db.batchFails db.batchIndex = true := by simpa using hfail
      constructor
      · simp [runChunks, dbBatch, h0]
      · simp [runChunks, dbBatch, h0]
    | succ m =>
      have h0 : db.batchFails db.batchIndex = false := by
        simpa using hok 0 (Nat.succ_pos m)
      have hstep : runChunks (c :: cs) db = runChunks cs
          { db with log := db.log ++ [DbOp.batchWrite (c.map toUpsertStmt)],
                    batchIndex := db.batchIndex + 1,
                    rows := ((c.map toUpsertStmt).foldl (applyUpsertStmt db.now)
                      (db.rows, db.nextId)).1,
                    nextId := ((c.map toUpsertStmt).foldl (applyUpsertStmt db.now)
                      (db.rows, db.nextId)).2 } := by
        simp [runChunks, dbBatch, h0]
      rw [hstep]
      have hrec := ih
        { db with log := db.log ++ [DbOp.batchWrite (c.map toUpsertStmt)],
                  batchIndex := db.batchIndex + 1,
                  rows := ((c.map toUpsertStmt).foldl (applyUpsertStmt db.now)
                    (db.rows, db.nextId)).1,
                  nextId := ((c.map toUpsertStmt).foldl (applyUpsertStmt db.now)
                    (db.rows, db.nextId)).2 }
        m (by simpa using Nat.lt_of_succ_lt_succ hn)
        (by simpa [Nat.add_assoc, Nat.add_comm 1 m] using hfail)
        (by
          intro j hj
          have hh := hok (j + 1) (Nat.succ_lt_succ hj)
          simpa [Nat.add_assoc, Nat.add_comm 1 j] using hh)
      refine ⟨hrec.1, ?_⟩
      rw [hrec.2]
      simp

theorem chunkArrayGo_flatten (size : Nat) (hs : size ≠ 0) :
    ∀ (fuel : Nat) (items : List α), items.length ≤ fuel →
      (chunkArrayGo size fuel items).flatten = items := by
  intro fuel
  induction fuel with
  | zero =>
    intro items h
    cases items with
    | nil => rfl
    | cons a as => simp at h
  | succ f ih =>
    intro items h
    cases items with
    | nil => rfl
    | cons a as =>
      have hdrop : ((a :: as).drop size).length ≤ f := by
        simp only [List.length_drop, List.length_cons]
        have hpos : 0 < size := Nat.pos_of_ne_zero hs
        simp only [List.length_cons] at h
        omega
      calc (chunkArrayGo size (f + 1) (a :: as)).flatten
          = (a :: as).take size ++ (chunkArrayGo size f ((a :: as).drop size)).flatten := by
            simp [chunkArrayGo]
        _ = (a :: as).take size ++ (a :: as).drop size := by rw [ih _ hdrop]
        _ = a :: as := List.take_append_drop size (a :: as)

theorem chunkArray_flatten (items : List α) (size : Nat) (hs : size ≠ 0) :
    (chunkArray items size).flatten = items := by
  unfold chunkArray
  rw [if_neg hs]
  exact chunkArrayGo_flatten size hs items.length items le_rfl

theorem chunkArrayGo_mem_length (size : Nat) (c : List α) :
    ∀ (fuel : Nat) (items : List α), c ∈ chunkArrayGo size fuel items → c.length ≤ size := by
  intro fuel
  induction fuel with
  | zero =>
    intro items h
    simp [chunkArrayGo] at h
  | succ f ih =>
    intro items h
    cases items with
    | nil => simp [chunkArrayGo] at h
    | cons a as =>
      simp only [chunkArrayGo, List.mem_cons] at h
      rcases h with heq | hmem
      · subst heq
        simp [List.length_take]
      · exact ih _ hmem

theorem chunkArray_mem_length (items : List α) (size : Nat) (c : List α)
    (h : c ∈ chunkArray items size) : c.length ≤ size := by
  unfold chunkArray at h
  split_ifs at h with hz
  · simp at h
  · exact chunkArrayGo_mem_length size c items.length items h

/-- C2: `upsertFlights` rejects an empty batch and a batch of more than 500
records with a ValidationError without touching the store and independently of
record contents (so before any per-record validation); when any record fails
validation the whole operation returns that error with the store untouched
(zero records committed); a batch of exactly 500 records that all validate,
against a store whose batched writes succeed, returns `upserted = 500`. -/
theorem upsertFlights_batch_bounds (db : Db) (records : List UpsertFlightInput) :
    (upsertFlights [] db =
      (.error (.validation "Request body must include at least one flight record"), db)) ∧
    (records.length > MAX_UPSERT_RECORDS →
      upsertFlights records db =
        (.error (.validation "Maximum 500 records allowed per request"), db)) ∧
    (∀ e, normalizeAllRecords records = .error e → records.length ≠ 0 →
      records.length ≤ MAX_UPSERT_RECORDS →
      upsertFlights records db = (.error e, db)) ∧
    (records.length = 500 → (normalizeAllRecords records).isOk = true →
      (∀ k, db.batchFails k = false) →
      (upsertFlights records db).1 = .ok { upserted := 500 }) := by
  refine ⟨rfl, ?_, ?_, ?_⟩
  · intro h
    have hpos : 0 < records.length := lt_of_le_of_lt (Nat.zero_le _) h
    unfold upsertFlights
    rw [if_neg (Nat.pos_iff_ne_zero.mp hpos), if_pos h]
    exact rfl
  · intro e he h0 h1
    unfold upsertFlights
    rw [if_neg h0, if_neg (Nat.not_lt.mpr h1), he]
  · intro h500 hok hnf
    obtain ⟨nr, hnr⟩ : ∃ nr, normalizeAllRecords records = .ok nr := by
      cases hx : normalizeAllRecords records with
      | error e => rw [hx] at hok; simp [Except.isOk, Except.toBool] at hok
      | ok nr => exact ⟨nr, rfl⟩
    have hlen : nr.length = 500 := by
      rw [normalizeAllRecordsFrom_length records 0 nr hnr, h500]
    have hchunks := runChunks_no_failure (chunkArray nr D1_BATCH_SIZE) db
      (fun j _ => hnf (db.batchIndex + j))
    have hpair : runChunks (chunkArray nr D1_BATCH_SIZE) db =
        (.ok (), (runChunks (chunkArray nr D1_BATCH_SIZE) db).2) := by
      calc runChunks (chunkArray nr D1_BATCH_SIZE) db
          = ((runChunks (chunkArray nr D1_BATCH_SIZE) db).1,
             (runChunks (chunkArray nr D1_BATCH_SIZE) db).2) := rfl
        _ = (.ok (), (runChunks (chunkArray nr D1_BATCH_SIZE) db).2) := by
            rw [hchunks.1]
    unfold upsertFlights
    rw [if_neg (by rw [h500]; decide), if_neg (by rw [h500]; decide), hnr]
    dsimp only
    rw [hpair]
    dsimp only
    rw [hlen]

set_option maxRecDepth 1000000 in
/-- Witness for C2: empty batch, 501-record batch, a batch with an invalid
record, and a 500-record valid batch against the sample store. -/
theorem upsertFlights_batch_bounds_witness :
    (upsertFlights [] sampleDb =
      (.error (.validation "Request body must include at least one flight record"), sampleDb)) ∧
    (upsertFlights (List.replicate 501 sampleUpsertRecord) sampleDb =
      (.error (.validation "Maximum 500 records allowed per request"), sampleDb)) ∧
    (upsertFlights [sampleBadRecord] sampleDb =
      (.error (.validation "records[0].program_id is required"), sampleDb)) ∧
    ((upsertFlights (List.replicate 500 sampleUpsertRecord) sampleDb).1 =
      .ok { upserted := 500 }) := by
  refine ⟨(upsertFlights_batch_bounds sampleDb []).1, ?_, ?_, ?_⟩
  · exact (upsertFlights_batch_bounds sampleDb (List.replicate 501 sampleUpsertRecord)).2.1
      (by rw [List.length_replicate]; decide)
  · exact (upsertFlights_batch_bounds sampleDb [sampleBadRecord]).2.2.1
      (.validation "records[0].program_id is required") (by rfl) (by decide) (by decide)
  · exact (upsertFlights_batch_bounds sampleDb (List.replicate 500 sampleUpsertRecord)).2.2.2
      (by rw [List.length_replicate]) (by decide) (fun k => rfl)

/-- C5: within a bulk upsert the validated records are split into fixed-size
chunks of at most 50 whose in-order concatenation is the validated list;
chunks are submitted sequentially in array order (the store log receives one
batched write per chunk, in order); and if the write of chunk n fails the
operation stops with a DatabaseError having submitted exactly chunks 0..n, so
chunk n+1 is never submitted. -/
theorem upsert_chunking_sequential (db : Db) (records : List UpsertFlightInput)
    (nr : List NormalizedFlightRecord)
    (h0 : records.length ≠ 0) (h1 : records.length ≤ MAX_UPSERT_RECORDS)
    (hnr : normalizeAllRecords records = .ok nr) :
    ((chunkArray nr D1_BATCH_SIZE).flatten = nr) ∧
    (∀ c ∈ chunkArray nr D1_BATCH_SIZE, c.length ≤ D1_BATCH_SIZE) ∧
    ((∀ j, j < (chunkArray nr D1_BATCH_SIZE).length →
        db.batchFails (db.batchIndex + j) = false) →
      (upsertFlights records db).2.log = db.log ++
        (chunkArray nr D1_BATCH_SIZE).map (fun c => DbOp.batchWrite (c.map toUpsertStmt)) ∧
      (upsertFlights records db).1 = .ok { upserted := records.length }) ∧
    (∀ n, n < (chunkArray nr D1_BATCH_SIZE).length →
      db.batchFails (db.batchIndex + n) = true →
      (∀ j, j < n → db.batchFails (db.batchIndex + j) = false) →
      (upsertFlights records db).1 = .error (.database "Failed to upsert award flights") ∧
      (upsertFlights records db).2.log = db.log ++
        ((chunkArray nr D1_BATCH_SIZE).take (n + 1)).map
          (fun c => DbOp.batchWrite (c.map toUpsertStmt))) := by
  have hun : upsertFlights records db =
      (match runChunks (chunkArray nr D1_BATCH_SIZE) db with
       | (.error e, db1) => (.error e, db1)
       | (.ok _, db1) => (.ok { upserted := nr.length }, db1)) := by
    unfold upsertFlights
    rw [if_neg h0, if_neg (Nat.not_lt.mpr h1), hnr]
  refine ⟨chunkArray_flatten nr D1_BATCH_SIZE (by decide),
    fun c hc => chunkArray_mem_length nr D1_BATCH_SIZE c hc, ?_, ?_⟩
  · intro hcond
    have hch := runChunks_no_failure (chunkArray nr D1_BATCH_SIZE) db hcond
    have hpair : runChunks (chunkArray nr D1_BATCH_SIZE) db =
        (.ok (), (runChunks (chunkArray nr D1_BATCH_SIZE) db).2) := by
      calc runChunks (chunkArray nr D1_BATCH_SIZE) db
          = ((runChunks (chunkArray nr D1_BATCH_SIZE) db).1,
             (runChunks (chunkArray nr D1_BATCH_SIZE) db).2) := rfl
        _ = (.ok (), (runChunks (chunkArray nr D1_BATCH_SIZE) db).2) := by rw [hch.1]
    rw [hun, hpair]
    dsimp only
    exact ⟨hch.2.1, by rw [normalizeAllRecordsFrom_length records 0 nr hnr]⟩
  · intro n hn hfail hok
    have hch := runChunks_failure (chunkArray nr D1_BATCH_SIZE) db n hn hfail hok
    have hpair : runChunks (chunkArray nr D1_BATCH_SIZE) db =
        (.error (.database "Failed to upsert award flights"),
         (runChunks (chunkArray nr D1_BATCH_SIZE) db).2) := by
      calc runChunks (chunkArray nr D1_BATCH_SIZE) db
          = ((runChunks (chunkArray nr D1_BATCH_SIZE) db).1,
             (runChunks (chunkArray nr D1_BATCH_SIZE) db).2) := rfl
        _ = (.error (.database "Failed to upsert award flights"),
             (runChunks (chunkArray nr D1_BATCH_SIZE) db).2) := by rw [hch.1]
    rw [hun, hpair]
    dsimp only
    exact ⟨rfl, hch.2⟩

set_option maxRecDepth 1000000 in
/-- Witness for C5: 51 identical valid records (two chunks) against a store
whose second batched write call fails: the operation returns a DatabaseError
and the log holds exactly the two submitted chunk writes. -/
theorem upsert_chunking_sequential_witness :
    ((chunkArray (List.replicate 51 sampleNormalizedRecord) D1_BATCH_SIZE).flatten =
      List.replicate 51 sampleNormalizedRecord) ∧
    ((upsertFlights (List.replicate 51 sampleUpsertRecord) sampleFailingDb).1 =
      .error (.database "Failed to upsert award flights")) ∧
    ((upsertFlights (List.replicate 51 sampleUpsertRecord) sampleFailingDb).2.log =
      sampleFailingDb.log ++
        ((chunkArray (List.replicate 51 sampleNormalizedRecord) D1_BATCH_SIZE).take 2).map
          (fun c => DbOp.batchWrite (c.map toUpsertStmt))) := by
  have h := upsert_chunking_sequential sampleFailingDb
    (List.replicate 51 sampleUpsertRecord) (List.replicate 51 sampleNormalizedRecord)
    (by rw [List.length_replicate]; decide) (by rw [List.length_replicate]; decide) (by rfl)
  have hfail := h.2.2.2 1 (by decide) (by rfl)
    (by
      intro j hj
      have hj0 : j = 0 := by omega
      subst hj0
      rfl)
  exact ⟨h.1, hfail.1, hfail.2⟩

theorem jsTrunc_den_one (a : ℚ) (ha : a.den = 1) : jsTrunc a = a.num := by
  unfold jsTrunc
  rw [ha]
  exact Int.tdiv_one a.num

theorem jsTrunc_lt_iff (a b : ℚ) (ha : a.den = 1) (hb : b.den = 1) :
    (jsTrunc a < jsTrunc b) = (a < b) := by
  rw [jsTrunc_den_one a ha, jsTrunc_den_one b hb]
  have ha2 : (a.num : ℚ) = a := (Rat.den_eq_one_iff a).mp ha
  have hb2 : (b.num : ℚ) = b := (Rat.den_eq_one_iff b).mp hb
  apply propext
  constructor
  · intro h
    rw [← ha2, ← hb2]
    exact_mod_cast h
  · intro h
    rw [← ha2, ← hb2] at h
    exact_mod_cast h

theorem jsTrunc_le_iff (a b : ℚ) (ha : a.den = 1) (hb : b.den = 1) :
    (jsTrunc a ≤ jsTrunc b) = (a ≤ b) := by
  rw [jsTrunc_den_one a ha, jsTrunc_den_one b hb]
  have ha2 : (a.num : ℚ) = a := (Rat.den_eq_one_iff a).mp ha
  have hb2 : (b.num : ℚ) = b := (Rat.den_eq_one_iff b).mp hb
  apply propext
  constructor
  · intro h
    rw [← ha2, ← hb2]
    exact_mod_cast h
  · intro h
    rw [← ha2, ← hb2] at h
    exact_mod_cast h

theorem apiLePoints_toRow (a b : FlightRowCols)
    (ha : a.points.den = 1) (hb : b.points.den = 1) :
    apiLePoints (toAwardFlightRow a) (toAwardFlightRow b) = rowLePoints a b := by
  unfold apiLePoints rowLePoints toAwardFlightRow
  simp only [jsTrunc_lt_iff a.points b.points ha hb, jsTrunc_lt_iff b.points a.points hb ha]

theorem apiLeDate_toRow (a b : FlightRowCols)
    (ha : a.points.den = 1) (hb : b.points.den = 1) :
    apiLeDate (toAwardFlightRow a) (toAwardFlightRow b) = rowLeDate a b := by
  unfold apiLeDate rowLeDate toAwardFlightRow
  simp only [jsTrunc_le_iff a.points b.points ha hb]

/-- C6: for every valid search, returned rows are ordered by points ASC, then
departure date ASC, then departure time ASC when `sort=points`, and by
departure date ASC, then departure time ASC, then points ASC when `sort=date`
(which is also the default when sort is absent); in particular the Scenario A
search (`sort=points, limit=2` over three economy rows with points
45000/30000/60000) returns points `[30000, 45000]` in order with
`meta.total = 3`. -/
theorem searchFlights_ordering :
    (∀ (input : SearchFlightsInput) (db : Db) (n : NormalizedSearchFilters)
       (res : SearchFlightsResult) (db2 : Db),
      normalizeSearchFilters input = .ok n →
      searchFlights input db = (.ok res, db2) →
      (∀ r ∈ db.rows, r.points.den = 1) →
      (n.sort = .points → res.data.Pairwise (fun a b => apiLePoints a b = true)) ∧
      (n.sort = .date → res.data.Pairwise (fun a b => apiLeDate a b = true))) ∧
    (normalizeSort none = .ok .date) ∧
    ((searchFlights sampleSearchInput sampleDb).1.toOption.map
      (fun r => r.data.map (fun x => x.points)) = some [30000, 45000]) ∧
    ((searchFlights sampleSearchInput sampleDb).1.toOption.map
      (fun r => r.meta.total) = some 3) := by
  refine ⟨?_, by rfl, by decide, by decide⟩
  intro input db n res db2 hn hs hden
  have hun : searchFlights input db =
      (.ok { data := (runSelectQuery (buildWhereClause n) n.sort n.limit n.offset
                db.rows).map toAwardFlightRow,
             meta := { total := runCountQuery (buildWhereClause n) db.rows,
                       limit := n.limit, offset := n.offset } },
       { db with log := db.log ++ [DbOp.readQuery, DbOp.readQuery] }) := by
    unfold searchFlights
    rw [hn]
  rw [hun] at hs
  have hbig := Except.ok.inj (Prod.ext_iff.mp hs).1
  have hdata : res.data = (runSelectQuery (buildWhereClause n) n.sort n.limit n.offset
      db.rows).map toAwardFlightRow :=
    (congrArg SearchFlightsResult.data hbig).symm
  have hpwsorted : (sortByLE (orderLE n.sort)
      (db.rows.filter (fun r => rowMatches (buildWhereClause n) r))).Pairwise
        (fun a b => orderLE n.sort a b = true) :=
    pairwise_sortByLE (orderLE n.sort) (orderLE_total n.sort)
      (orderLE_trans n.sort) _
  have hsub : (runSelectQuery (buildWhereClause n) n.sort n.limit n.offset db.rows).Sublist
      (sortByLE (orderLE n.sort)
        (db.rows.filter (fun r => rowMatches (buildWhereClause n) r))) := by
    unfold runSelectQuery
    exact (List.take_sublist _ _).trans (List.drop_sublist _ _)
  have hpwpage : (runSelectQuery (buildWhereClause n) n.sort n.limit n.offset
      db.rows).Pairwise (fun a b => orderLE n.sort a b = true) :=
    List.Pairwise.sublist hsub hpwsorted
  have hmemden : ∀ r ∈ runSelectQuery (buildWhereClause n) n.sort n.limit n.offset db.rows,
      r.points.den = 1 := by
    intro r hr
    have hr2 := hsub.subset hr
    have hr3 := (mem_sortByLE _ _ _).mp hr2
    exact hden r (List.mem_filter.mp hr3).1
  constructor
  · intro hsort
    rw [hdata]
    rw [List.pairwise_map]
    refine hpwpage.imp_of_mem ?_
    intro a b ha hb hab
    rw [apiLePoints_toRow a b (hmemden a ha) (hmemden b hb)]
    rw [hsort] at hab
    exact hab
  · intro hsort
    rw [hdata]
    rw [List.pairwise_map]
    refine hpwpage.imp_of_mem ?_
    intro a b ha hb hab
    rw [apiLeDate_toRow a b (hmemden a ha) (hmemden b hb)]
    rw [hsort] at hab
    exact hab

/-- Witness for C6 at the Scenario A input and store: the returned page is the
two cheapest rows in points order, `meta.total = 3`, and the page satisfies
the claimed points-ordering chain. -/
theorem searchFlights_ordering_witness :
    ((searchFlights sampleSearchInput sampleDb).1.toOption.map
      (fun r => r.data.map (fun x => x.points)) = some [30000, 45000]) ∧
    ((searchFlights sampleSearchInput sampleDb).1.toOption.map
      (fun r => r.meta.total) = some 3) ∧
    (List.Pairwise (fun a b => apiLePoints a b = true)
      [toAwardFlightRow (sampleRow 2 30000 "2025-03-02".toList "10:00".toList),
       toAwardFlightRow (sampleRow 1 45000 "2025-03-01".toList "09:00".toList)]) := by
  refine ⟨searchFlights_ordering.2.2.1, searchFlights_ordering.2.2.2, ?_⟩
  have h := (searchFlights_ordering.1 sampleSearchInput sampleDb sampleNormalizedFilters
    { data := [toAwardFlightRow (sampleRow 2 30000 "2025-03-02".toList "10:00".toList),
               toAwardFlightRow (sampleRow 1 45000 "2025-03-01".toList "09:00".toList)],
      meta := { total := 3, limit := 2, offset := 0 } }
    { sampleDb with log := [DbOp.readQuery, DbOp.readQuery] }
    (by rfl) (by rfl) (by decide)).1 (by rfl)
  exact h

/-- C7: monetary amounts are rounded to 2 decimals at the point of upsert
normalization via multiply-by-100 / round / divide-by-100 (`round2` applied to
`taxes_myr` and `cash_equivalent_myr` in the normalized record); for
non-negative inputs an exact half rounds away from zero; in particular
`123.456` normalizes to `123.46` and `123.454` to `123.45`. -/
theorem round2_money_normalization :
    (∀ (input : UpsertFlightInput) (index : Nat)
       (programId origin destination flightNumber departureDate departureTime
         arrivalTime : JsStr)
       (arrivalDayOffset durationMinutes : ℚ) (routeType cabin tier : JsStr)
       (points : ℚ) (available : Bool) (seatsLeft : Option ℚ) (taxesMyr : ℚ)
       (cashEquivalentMyr : Option ℚ),
      requireRecordText input.programId s!"records[{index}]" "program_id" = .ok programId →
      requireRecordIata input.origin s!"records[{index}]" "origin" (some DEFAULT_ORIGIN)
        = .ok origin →
      requireRecordIata (some input.destination) s!"records[{index}]" "destination" none
        = .ok destination →
      requireRecordText input.flightNumber s!"records[{index}]" "flight_number"
        = .ok flightNumber →
      requireRecordIsoDate input.departureDate s!"records[{index}]" "departure_date"
        = .ok departureDate →
      requireRecordTime input.departureTime s!"records[{index}]" "departure_time"
        = .ok departureTime →
      requireRecordTime input.arrivalTime s!"records[{index}]" "arrival_time"
        = .ok arrivalTime →
      normalizeRecordArrivalDayOffset input.arrivalDayOffset s!"records[{index}]"
        = .ok arrivalDayOffset →
      requireRecordPositiveInt input.durationMinutes s!"records[{index}]" "duration_minutes"
        = .ok durationMinutes →
      normalizeRecordRouteType input.routeType s!"records[{index}]" = .ok routeType →
      normalizeRecordCabin input.cabin s!"records[{index}]" = .ok cabin →
      requireRecordText input.tier s!"records[{index}]" "tier" = .ok tier →
      requireRecordPositiveInt input.points s!"records[{index}]" "points" = .ok points →
      normalizeRecordAvailable input.available s!"records[{index}]" = .ok available →
      normalizeRecordOptionalNonNegativeInt input.seatsLeft s!"records[{index}]" "seats_left"
        = .ok seatsLeft →
      requireRecordNonNegativeNumber input.taxesMyr s!"records[{index}]" "taxes_myr"
        = .ok taxesMyr →
      normalizeRecordOptionalNonNegativeNumber input.cashEquivalentMyr s!"records[{index}]"
        "cash_equivalent_myr" = .ok cashEquivalentMyr →
      normalizeUpsertFlightInput input index = .ok
        { programId := programId, origin := origin, destination := destination,
          flightNumber := flightNumber, departureDate := departureDate,
          departureTime := departureTime, arrivalTime := arrivalTime,
          arrivalDayOffset := arrivalDayOffset, durationMinutes := durationMinutes,
          routeType := routeType, cabin := cabin, tier := tier, points := points,
          available := available, seatsLeft := seatsLeft,
          taxesMyr := round2 taxesMyr,
          cashEquivalentMyr := cashEquivalentMyr.map round2,
          notes := input.notes }) ∧
    (∀ (q : ℚ) (z : ℤ), 0 ≤ q → q * 100 = (z : ℚ) + 1/2 →
      round2 q = ((z + 1 : ℤ) : ℚ) / 100) ∧
    (round2 (123456/1000) = 12346/100) ∧
    (round2 (123454/1000) = 12345/100) := by
  refine ⟨?_, ?_, ?_, ?_⟩
  · intro input index programId origin destination flightNumber departureDate departureTime
      arrivalTime arrivalDayOffset durationMinutes routeType cabin tier points available
      seatsLeft taxesMyr cashEquivalentMyr
      h1 h2 h3 h4 h5 h6 h7 h8 h9 h10 h11 h12 h13 h14 h15 h16 h17
    unfold normalizeUpsertFlightInput
    dsimp only
    rw [h1, except_ok_bind, h2, except_ok_bind, h3, except_ok_bind, h4, except_ok_bind,
      h5, except_ok_bind, h6, except_ok_bind, h7, except_ok_bind, h8, except_ok_bind,
      h9, except_ok_bind, h10, except_ok_bind, h11, except_ok_bind, h12, except_ok_bind,
      h13, except_ok_bind, h14, except_ok_bind, h15, except_ok_bind, h16, except_ok_bind,
      h17, except_ok_bind]
  · intro q z hq hhalf
    unfold round2
    rw [hhalf, round_eq]
    have hfloor : ((z : ℚ) + 1/2 + 1/2) = ((z + 1 : ℤ) : ℚ) := by
      push_cast
      ring
    rw [hfloor, Int.floor_intCast]
  · norm_num [round2, round_eq]
  · norm_num [round2, round_eq]

/-- Witness for C7: the sample record's monetary fields are rounded via
`round2` at normalization, and an exact half (0.125 → 12.5 hundredths) rounds
up to 0.13. -/
theorem round2_money_normalization_witness :
    (normalizeUpsertFlightInput sampleUpsertRecord 0 = .ok sampleNormalizedRecord) ∧
    (round2 (1/8) = ((13 : ℤ) : ℚ) / 100) := by
  constructor
  · have h := round2_money_normalization.1 sampleUpsertRecord 0
      "enrich".toList "KUL".toList "AKL".toList "MH145".toList "2025-03-01".toList
      "09:00".toList "20:30".toList 1 630 "direct".toList "economy".toList "saver".toList
      30000 true (some 4) 250 none
      (by rfl) (by rfl) (by rfl) (by rfl) (by rfl) (by rfl) (by rfl) (by rfl) (by rfl)
      (by rfl) (by rfl) (by rfl) (by rfl) (by rfl) (by rfl) (by rfl) (by rfl)
    exact h
  · have h := round2_money_normalization.2.1 (1/8) 12 (by norm_num) (by norm_num)
    rw [h]
    norm_num

theorem byCabinStep_first_of_ne (acc : ByCabin) (g : StatsGroupRow)
    (h : g.cabin ≠ "first".toList) : (byCabinStep acc g).first = acc.first := by
  unfold byCabinStep
  split_ifs with h1 h2 h3 h4
  · rfl
  · rfl
  · rfl
  · rfl
  · exfalso
    apply h
    have hc : isCabin g.cabin = true := by simpa using h1
    unfold isCabin at hc
    simp only [Bool.or_eq_true, decide_eq_true_eq] at hc
    rcases hc with (hec | hbu) | hfi
    · exact absurd hec h3
    · exact absurd hbu h4
    · exact hfi

theorem foldl_byCabinStep_first (groups : List StatsGroupRow) :
    ∀ acc : ByCabin, (∀ g ∈ groups, g.cabin ≠ "first".toList) →
      (groups.foldl byCabinStep acc).first = acc.first := by
  induction groups with
  | nil => intro acc _; rfl
  | cons g gs ih =>
    intro acc h
    have hg : g.cabin ≠ "first".toList := h g (List.mem_cons_self g gs)
    calc (List.foldl byCabinStep acc (g :: gs)).first
        = (List.foldl byCabinStep (byCabinStep acc g) gs).first := rfl
      _ = (byCabinStep acc g).first := ih _ (fun x hx => h x (List.mem_cons_of_mem g hx))
      _ = acc.first := byCabinStep_first_of_ne acc g hg

theorem statsGroupRows_exists_row (rows : List FlightRowCols) (g : StatsGroupRow)
    (hg : g ∈ statsGroupRows rows) : ∃ r ∈ rows, r.cabin = g.cabin ∧ r.tier = g.tier := by
  unfold statsGroupRows at hg
  rw [List.mem_map] at hg
  obtain ⟨k, hk, hgk⟩ := hg
  rw [mem_sortByLE, List.mem_dedup, List.mem_map] at hk
  obtain ⟨r, hr, hkr⟩ := hk
  refine ⟨r, hr, ?_, ?_⟩
  · rw [← hgk]
    exact congrArg Prod.fst hkr
  · rw [← hgk]
    exact congrArg Prod.snd hkr

theorem byCabinStep_economy_of_ne (acc : ByCabin) (g : StatsGroupRow)
    (h : g.cabin ≠ "economy".toList) : (byCabinStep acc g).economy = acc.economy := by
  unfold byCabinStep
  split_ifs <;> simp_all

theorem byCabinStep_business_of_ne (acc : ByCabin) (g : StatsGroupRow)
    (h : g.cabin ≠ "business".toList) : (byCabinStep acc g).business = acc.business := by
  unfold byCabinStep
  split_ifs <;> simp_all

theorem foldl_byCabinStep_economy (groups : List StatsGroupRow) :
    ∀ acc : ByCabin, (∀ g ∈ groups, g.cabin ≠ "economy".toList) →
      (groups.foldl byCabinStep acc).economy = acc.economy := by
  induction groups with
  | nil => intro acc _; rfl
  | cons g gs ih =>
    intro acc h
    have hg : g.cabin ≠ "economy".toList := h g (List.mem_cons_self g gs)
    calc (List.foldl byCabinStep acc (g :: gs)).economy
        = (List.foldl byCabinStep (byCabinStep acc g) gs).economy := rfl
      _ = (byCabinStep acc g).economy := ih _ (fun x hx => h x (List.mem_cons_of_mem g hx))
      _ = acc.economy := byCabinStep_economy_of_ne acc g hg

theorem foldl_byCabinStep_business (groups : List StatsGroupRow) :
    ∀ acc : ByCabin, (∀ g ∈ groups, g.cabin ≠ "business".toList) →
      (groups.foldl byCabinStep acc).business = acc.business := by
  induction groups with
  | nil => intro acc _; rfl
  | cons g gs ih =>
    intro acc h
    have hg : g.cabin ≠ "business".toList := h g (List.mem_cons_self g gs)
    calc (List.foldl byCabinStep acc (g :: gs)).business
        = (List.foldl byCabinStep (byCabinStep acc g) gs).business := rfl
      _ = (byCabinStep acc g).business := ih _ (fun x hx => h x (List.mem_cons_of_mem g hx))
      _ = acc.business := byCabinStep_business_of_ne acc g hg

theorem statsGroups_cabin_free (db : Db) (n : NormalizedSearchFilters) (cab : JsStr)
    (hall : (db.rows.filter (fun r => rowMatches (buildWhereClause n) r)).all
      (fun r => !(r.cabin = cab)) = true) :
    ∀ g ∈ statsGroupRows (db.rows.filter (fun r => rowMatches (buildWhereClause n) r)),
      g.cabin ≠ cab := by
  intro g hg
  obtain ⟨r, hr, hrc, _⟩ := statsGroupRows_exists_row _ g hg
  have hra := List.all_eq_true.mp hall r hr
  simp only [Bool.not_eq_true', decide_eq_false_iff_not] at hra
  rw [← hrc]
  exact hra

theorem toNullableObject_ne_nil (x m : List (JsStr × TierPointStats))
    (hm : toNullableObject x = some m) : m ≠ [] := by
  unfold toNullableObject at hm
  split_ifs at hm with hlen
  cases hm
  intro hc
  rw [hc] at hlen
  exact absurd hlen (by decide)

/-- C8: in the flight-stats result a cabin with zero matching rows is `null`,
never an empty object, for each of the three cabins: if no row matching the
filters has a given cabin, that cabin's field of the result is `none`; and
whenever a cabin field is `some m`, the tier-map `m` is nonempty, so an
absent cabin is distinguishable from a zero-valued aggregate. -/
theorem flightStats_nullable_cabin (input : SearchFlightsInput) (db : Db)
    (n : NormalizedSearchFilters) (hn : normalizeSearchFilters input = .ok n) :
    ∃ res db2, getFlightStats input db = (.ok res, db2) ∧
      ((db.rows.filter (fun r => rowMatches (buildWhereClause n) r)).all
          (fun r => !(r.cabin = "economy".toList)) = true → res.economy = none) ∧
      ((db.rows.filter (fun r => rowMatches (buildWhereClause n) r)).all
          (fun r => !(r.cabin = "business".toList)) = true → res.business = none) ∧
      ((db.rows.filter (fun r => rowMatches (buildWhereClause n) r)).all
          (fun r => !(r.cabin = "first".toList)) = true → res.first = none) ∧
      (∀ m, res.economy = some m → m ≠ []) ∧
      (∀ m, res.business = some m → m ≠ []) ∧
      (∀ m, res.first = some m → m ≠ []) := by
  unfold getFlightStats
  rw [hn]
  dsimp only
  refine ⟨_, _, rfl, ?_, ?_, ?_, ?_, ?_, ?_⟩
  · intro hall
    show toNullableObject (buildByCabin (statsGroupRows
      (db.rows.filter (fun r => rowMatches (buildWhereClause n) r)))).economy = none
    unfold buildByCabin
    rw [foldl_byCabinStep_economy _ _ (statsGroups_cabin_free db n "economy".toList hall)]
    rfl
  · intro hall
    show toNullableObject (buildByCabin (statsGroupRows
      (db.rows.filter (fun r => rowMatches (buildWhereClause n) r)))).business = none
    unfold buildByCabin
    rw [foldl_byCabinStep_business _ _ (statsGroups_cabin_free db n "business".toList hall)]
    rfl
  · intro hall
    show toNullableObject (buildByCabin (statsGroupRows
      (db.rows.filter (fun r => rowMatches (buildWhereClause n) r)))).first = none
    unfold buildByCabin
    rw [foldl_byCabinStep_first _ _ (statsGroups_cabin_free db n "first".toList hall)]
    rfl
  · intro m hm
    exact toNullableObject_ne_nil _ m hm
  · intro m hm
    exact toNullableObject_ne_nil _ m hm
  · intro m hm
    exact toNullableObject_ne_nil _ m hm

/-- Witness for C8: the Scenario A stats query over a store with only economy
rows returns `business = none` and `first = none`. -/
theorem flightStats_nullable_cabin_witness :
    ∃ res db2, getFlightStats sampleSearchInput sampleDb = (.ok res, db2) ∧
      res.business = none ∧ res.first = none := by
  obtain ⟨res, db2, heq, _, hbus, hfir, _, _, _⟩ := flightStats_nullable_cabin
    sampleSearchInput sampleDb sampleNormalizedFilters (by rfl)
  exact ⟨res, db2, heq, hbus (by decide), hfir (by decide)⟩


/-- Counterexample for C9: the exported boolean primitive `toBool` silently
coerces tokens other than true/false instead of classifying them as invalid:
`"yes"` (not a true/false token, as witnessed against the query parser's
normalization) is coerced to `true` and `"no"` to `false`. -/
theorem toBool_silently_coerces :
    toBool (JsValue.str ['y', 'e', 's']) = true ∧
    toBool (JsValue.str ['n', 'o']) = false ∧
    jsToLower (jsTrim ['y', 'e', 's']) ≠ "true".toList ∧
    jsToLower (jsTrim ['y', 'e', 's']) ≠ "false".toList ∧
    parseOptionalBooleanQuery (some ['y', 'e', 's']) = some none := by
  refine ⟨by decide, by decide, by decide, by decide, by decide⟩

/-- C9 (amended): the boolean parsers actually consumed by the operations are
strict — `parseOptionalBooleanBody` accepts the boolean type and marks any
other present value invalid; `parseOptionalBooleanQuery` accepts exactly the
tokens `true`/`false` case-insensitively (after trimming) and marks any other
present token invalid; an invalid marker becomes a ValidationError in
`normalizeAvailableOnly` / `normalizeRecordAvailable`. The exported helper
`toBool`, in contrast, silently coerces unrecognized tokens (it maps `"yes"`
to `true`) and is not wired into any operation. -/
theorem boolean_parsers_strict (v : JsStr) (b : Bool) (x : JsValue) :
    (parseOptionalBooleanBody (.bool b) = some (some b)) ∧
    ((∀ c : Bool, x ≠ .bool c) → x ≠ .null → x ≠ .undef →
      parseOptionalBooleanBody x = some none) ∧
    (jsToLower (jsTrim v) = "true".toList →
      parseOptionalBooleanQuery (some v) = some (some true)) ∧
    (jsToLower (jsTrim v) = "false".toList →
      parseOptionalBooleanQuery (some v) = some (some false)) ∧
    (jsToLower (jsTrim v) ≠ [] → jsToLower (jsTrim v) ≠ "true".toList →
      jsToLower (jsTrim v) ≠ "false".toList →
      parseOptionalBooleanQuery (some v) = some none) ∧
    (normalizeAvailableOnly (some none) =
      .error (.validation "available_only must be true or false")) ∧
    (normalizeRecordAvailable (some none) "records[0]" =
      .error (.validation "records[0].available must be a boolean")) ∧
    (toBool (JsValue.str ['y', 'e', 's']) = true) := by
  refine ⟨rfl, ?_, ?_, ?_, ?_, rfl, by rfl, by decide⟩
  · intro hb hn hu
    cases x with
    | str s => rfl
    | num q => rfl
    | bool c => exact absurd rfl (hb c)
    | null => exact absurd rfl hn
    | undef => exact absurd rfl hu
  · intro h
    unfold parseOptionalBooleanQuery
    dsimp only
    rw [h]
    decide
  · intro h
    unfold parseOptionalBooleanQuery
    dsimp only
    rw [h]
    decide
  · intro h1 h2 h3
    have h2l : jsToLower (jsTrim v) ≠ ['t', 'r', 'u', 'e'] := h2
    have h3l : jsToLower (jsTrim v) ≠ ['f', 'a', 'l', 's', 'e'] := h3
    unfold parseOptionalBooleanQuery
    dsimp only
    rw [if_neg h1, if_neg h2l, if_neg h3l]

/-- Witness for the amended C9 at concrete tokens. -/
theorem boolean_parsers_strict_witness :
    (parseOptionalBooleanBody (.bool true) = some (some true)) ∧
    (parseOptionalBooleanBody (.str ['y', 'e', 's']) = some none) ∧
    (parseOptionalBooleanQuery (some (" TRUE ".toList)) = some (some true)) ∧
    (parseOptionalBooleanQuery (some ("False".toList)) = some (some false)) ∧
    (parseOptionalBooleanQuery (some ['y', 'e', 's']) = some none) ∧
    (normalizeAvailableOnly (some none) =
      .error (.validation "available_only must be true or false")) := by
  refine ⟨(boolean_parsers_strict [] true (.bool true)).1,
    (boolean_parsers_strict [] true (JsValue.str ['y', 'e', 's'])).2.1
      (by decide) (by decide) (by decide),
    (boolean_parsers_strict (" TRUE ".toList) true (.bool true)).2.2.1 (by decide),
    (boolean_parsers_strict ("False".toList) true (.bool true)).2.2.2.1 (by decide),
    (boolean_parsers_strict ['y', 'e', 's'] true (.bool true)).2.2.2.2.1
      (by decide) (by decide) (by decide),
    (boolean_parsers_strict [] true (.bool true)).2.2.2.2.2.1⟩

theorem evalPred_available_invariant (frag : String) (params : List SqlParam)
    (r : FlightRowCols) (q : ℚ) (h : frag ≠ "available = 1") :
    evalPred frag params { r with available := q } = evalPred frag params r := by
  by_cases h1 : frag = "origin = ?"
  · subst h1; rfl
  by_cases h2 : frag = "destination = ?"
  · subst h2; rfl
  by_cases h3 : frag = "departure_date = ?"
  · subst h3; rfl
  by_cases h4 : frag = "departure_date >= ?"
  · subst h4; rfl
  by_cases h5 : frag = "departure_date <= ?"
  · subst h5; rfl
  by_cases h6 : frag = "cabin = ?"
  · subst h6; rfl
  by_cases h7 : frag = "tier = ?"
  · subst h7; rfl
  by_cases h8 : frag = "program_id = ?"
  · subst h8; rfl
  by_cases h10 : frag = "points <= ?"
  · subst h10; rfl
  by_cases h11 : frag = "points >= ?"
  · subst h11; rfl
  simp only [evalPred, if_neg h1, if_neg h2, if_neg h3, if_neg h4, if_neg h5, if_neg h6,
    if_neg h7, if_neg h8, if_neg h, if_neg h10, if_neg h11]

theorem evalWhere_available_invariant (frags : List String) :
    ∀ (params : List SqlParam) (r : FlightRowCols) (q : ℚ),
      "available = 1" ∉ frags →
      evalWhere frags params { r with available := q } = evalWhere frags params r := by
  induction frags with
  | nil =>
    intro params r q _
    cases params <;> rfl
  | cons f fs ih =>
    intro params r q h
    have hf : f ≠ "available = 1" := fun hc => h (hc ▸ List.mem_cons_self f fs)
    simp only [evalWhere]
    rw [evalPred_available_invariant f params r q hf]
    cases hp : evalPred f params r with
    | none => rfl
    | some br =>
      cases br with
      | mk b rest =>
        dsimp only
        rw [ih rest r q (fun hc => h (List.mem_cons_of_mem f hc))]

theorem rowMatches_available_invariant (w : WhereClause) (r : FlightRowCols) (q : ℚ)
    (h : "available = 1" ∉ w.sql) :
    rowMatches w { r with available := q } = rowMatches w r := by
  unfold rowMatches
  rw [evalWhere_available_invariant w.sql w.params r q h]

theorem mem_pushIf_sql (x : String) (cond : Bool) (frag : String) (ps : List SqlParam)
    (prev : List String × List SqlParam) :
    x ∈ (pushIf cond frag ps prev).1 ↔ x ∈ prev.1 ∨ (cond = true ∧ x = frag) := by
  unfold pushIf
  split_ifs with hc
  · simp [hc]
  · simp [hc]

theorem buildWhereClause_no_avail (f : NormalizedSearchFilters)
    (hf : f.availableOnly = false) : "available = 1" ∉ (buildWhereClause f).sql := by
  unfold buildWhereClause
  dsimp only
  rw [hf]
  simp [mem_pushIf_sql]
  split_ifs <;> simp [mem_pushIf_sql]

theorem buildWhereClause_has_avail (f : NormalizedSearchFilters)
    (hf : f.availableOnly = true) : "available = 1" ∈ (buildWhereClause f).sql := by
  unfold buildWhereClause
  dsimp only
  rw [hf]
  simp [mem_pushIf_sql]

theorem getDestinationsClause_avail (input : DestinationsInput)
    (out : List String × List SqlParam) (hout : getDestinationsClause input = .ok out) :
    (input.availableOnly = some (some false) → "available = 1" ∉ out.1) ∧
    ((input.availableOnly = none ∨ input.availableOnly = some (some true)) →
      "available = 1" ∈ out.1) := by
  unfold getDestinationsClause at hout
  cases h1 : requireIataField input.origin "origin" (some DEFAULT_ORIGIN) with
  | error e => rw [h1, except_error_bind] at hout; cases hout
  | ok origin =>
    rw [h1, except_ok_bind] at hout
    cases h2 : normalizeDateFilters none input.dateFrom input.dateTo with
    | error e => rw [h2, except_error_bind] at hout; cases hout
    | ok dates =>
      rw [h2, except_ok_bind] at hout
      cases h3 : normalizeCabinField input.cabin with
      | error e => rw [h3, except_error_bind] at hout; cases hout
      | ok cabin =>
        rw [h3, except_ok_bind] at hout
        cases h4 : normalizeAvailableOnly input.availableOnly with
        | error e => rw [h4, except_error_bind] at hout; cases hout
        | ok avail =>
          rw [h4, except_ok_bind] at hout
          have hout2 := Except.ok.inj hout
          constructor
          · intro hfalse
            rw [hfalse] at h4
            have havail : false = avail := Except.ok.inj h4
            rw [← hout2, ← havail]
            simp [mem_pushIf_sql]
          · intro htrue
            have havail : true = avail := by
              rcases htrue with ht | ht <;> rw [ht] at h4 <;> exact Except.ok.inj h4
            rw [← hout2, ← havail]
            simp [mem_pushIf_sql]

theorem getCheapestByDateClause_avail (input : CheapestByDateInput)
    (out : List String × List SqlParam) (hout : getCheapestByDateClause input = .ok out) :
    (input.availableOnly = some (some false) → "available = 1" ∉ out.1) ∧
    ((input.availableOnly = none ∨ input.availableOnly = some (some true)) →
      "available = 1" ∈ out.1) := by
  unfold getCheapestByDateClause at hout
  cases h0 : requireIataField (some input.destination) "destination" none with
  | error e => rw [h0, except_error_bind] at hout; cases hout
  | ok destination =>
    rw [h0, except_ok_bind] at hout
    cases h1 : requireIataField input.origin "origin" (some DEFAULT_ORIGIN) with
    | error e => rw [h1, except_error_bind] at hout; cases hout
    | ok origin =>
      rw [h1, except_ok_bind] at hout
      cases h2 : normalizeDateFilters none input.dateFrom input.dateTo with
      | error e => rw [h2, except_error_bind] at hout; cases hout
      | ok dates =>
        rw [h2, except_ok_bind] at hout
        cases h3 : normalizeCabinField input.cabin with
        | error e => rw [h3, except_error_bind] at hout; cases hout
        | ok cabin =>
          rw [h3, except_ok_bind] at hout
          cases h4 : normalizeAvailableOnly input.availableOnly with
          | error e => rw [h4, except_error_bind] at hout; cases hout
          | ok avail =>
            rw [h4, except_ok_bind] at hout
            have hout2 := Except.ok.inj hout
            constructor
            · intro hfalse
              rw [hfalse] at h4
              have havail : false = avail := Except.ok.inj h4
              rw [← hout2, ← havail]
              simp [mem_pushIf_sql]
            · intro htrue
              have havail : true = avail := by
                rcases htrue with ht | ht <;> rw [ht] at h4 <;> exact Except.ok.inj h4
              rw [← hout2, ← havail]
              simp [mem_pushIf_sql]

/-- C10: when `available_only` is explicitly false the WHERE builders add no
availability predicate at all — search/stats clauses (`buildWhereClause`),
the destinations clause and the cheapest-by-date clause all lack
`available = 1`, and search/stats row matching is then insensitive to the
`available` column (both available and unavailable rows are returned); only
`available_only = true`, which is also the default applied when the field is
absent, adds the `available = 1` predicate. -/
theorem availableOnly_false_no_predicate :
    (normalizeAvailableOnly none = .ok true) ∧
    (∀ f : NormalizedSearchFilters, f.availableOnly = false →
      ("available = 1" ∉ (buildWhereClause f).sql) ∧
      (∀ (r : FlightRowCols) (q : ℚ),
        rowMatches (buildWhereClause f) { r with available := q } =
          rowMatches (buildWhereClause f) r)) ∧
    (∀ f : NormalizedSearchFilters, f.availableOnly = true →
      "available = 1" ∈ (buildWhereClause f).sql) ∧
    (∀ (input : DestinationsInput) (out : List String × List SqlParam),
      getDestinationsClause input = .ok out →
      (input.availableOnly = some (some false) → "available = 1" ∉ out.1) ∧
      ((input.availableOnly = none ∨ input.availableOnly = some (some true)) →
        "available = 1" ∈ out.1)) ∧
    (∀ (input : CheapestByDateInput) (out : List String × List SqlParam),
      getCheapestByDateClause input = .ok out →
      (input.availableOnly = some (some false) → "available = 1" ∉ out.1) ∧
      ((input.availableOnly = none ∨ input.availableOnly = some (some true)) →
        "available = 1" ∈ out.1)) := by
  refine ⟨rfl, ?_, buildWhereClause_has_avail, getDestinationsClause_avail,
    getCheapestByDateClause_avail⟩
  intro f hf
  refine ⟨buildWhereClause_no_avail f hf, ?_⟩
  intro r q
  exact rowMatches_available_invariant (buildWhereClause f) r q (buildWhereClause_no_avail f hf)

/-- Witness for C10: the Scenario A filters with `available_only = false`
carry no availability predicate and match rows regardless of the `available`
column; with `available_only = true` the predicate is present; the
destinations and cheapest-by-date clauses behave the same at concrete inputs. -/
theorem availableOnly_false_no_predicate_witness :
    ("available = 1" ∉
      (buildWhereClause { sampleNormalizedFilters with availableOnly := false }).sql) ∧
    (rowMatches (buildWhereClause { sampleNormalizedFilters with availableOnly := false })
        { sampleRow 1 45000 "2025-03-01".toList "09:00".toList with available := 0 } =
      rowMatches (buildWhereClause { sampleNormalizedFilters with availableOnly := false })
        (sampleRow 1 45000 "2025-03-01".toList "09:00".toList)) ∧
    ("available = 1" ∈ (buildWhereClause sampleNormalizedFilters).sql) ∧
    ("available = 1" ∉
      (["origin = ?"], [SqlParam.str "KUL".toList]).1) ∧
    ("available = 1" ∈
      (["origin = ?", "destination = ?", "available = 1"],
       [SqlParam.str "KUL".toList, SqlParam.str "AKL".toList]).1) := by
  refine ⟨(availableOnly_false_no_predicate.2.1
      { sampleNormalizedFilters with availableOnly := false } rfl).1,
    (availableOnly_false_no_predicate.2.1
      { sampleNormalizedFilters with availableOnly := false } rfl).2
      (sampleRow 1 45000 "2025-03-01".toList "09:00".toList) 0,
    availableOnly_false_no_predicate.2.2.1 sampleNormalizedFilters rfl, ?_, ?_⟩
  · exact (availableOnly_false_no_predicate.2.2.2.1
      { origin := none, dateFrom := none, dateTo := none, cabin := none,
        availableOnly := some (some false) }
      (["origin = ?"], [SqlParam.str "KUL".toList]) (by rfl)).1 rfl
  · exact (availableOnly_false_no_predicate.2.2.2.2
      { destination := "AKL".toList, origin := none, dateFrom := none, dateTo := none,
        cabin := none, programId := none, availableOnly := none }
      (["origin = ?", "destination = ?", "available = 1"],
       [SqlParam.str "KUL".toList, SqlParam.str "AKL".toList]) (by rfl)).2 (Or.inl rfl)
